import Mathlib

/-!
Verification development for the heimdall near-duplicate pull-request detection engine.

The definitions below are a shallow embedding of the repository's duplicate-detection
pipeline (src/duplicate-pr.ts, src/core/utils.ts, src/core/similarity.ts,
src/core/pr-features.ts, src/core/github.ts and the representation cache module).
JavaScript numbers are modeled as rationals (ℚ) and integers (Int/Nat), JS strings as
Lean strings over code points (identical to UTF-16 semantics on the basic multilingual
plane, which covers all text the pipeline manipulates), JS `Set`/`Map` as
insertion-ordered association lists (exactly the iteration-order semantics of JS
collections), and `null`/`undefined`/absent values as `Option`.  Remote I/O (the GitHub
client and `Date.parse`) is passed in as an explicit environment, and the module-level
representation cache is threaded through as explicit state.
-/

/- 　===== Character and string primitives =====
   JS string operations used by the pipeline, implemented structurally over the
   character list of a string so that every definition evaluates by kernel reduction. -/

/-- Whitespace test modeling the JS regex class `\s` for the ASCII whitespace characters
that occur in diff text. -/
def isWsChar (c : Char) : Bool := c.isWhitespace

/-- Models `String.prototype.trim`: drop whitespace from both ends. -/
def trimChars (cs : List Char) : List Char :=
  ((cs.dropWhile isWsChar).reverse.dropWhile isWsChar).reverse

/-- Models `String.prototype.trim` on strings. -/
def jsTrim (s : String) : String := String.mk (trimChars s.toList)

/-- Models `String.prototype.toLowerCase` (ASCII case mapping; every token the pipeline
lowercases is ASCII). -/
def jsToLower (s : String) : String := String.mk (s.toList.map Char.toLower)

/-- Models `String.prototype.startsWith`. -/
def jsStartsWith (s marker : String) : Bool := marker.toList.isPrefixOf s.toList

/-- Models `String.prototype.slice(0, n)` for a nonnegative bound: the first `n`
characters. -/
def jsTake (s : String) (n : Nat) : String := String.mk (s.toList.take n)

/-- Models `String.prototype.slice(1)`: drop the first character. -/
def jsDropOne (s : String) : String := String.mk s.toList.tail

/-- Split a character list at every occurrence of the separator character.  Models
`String.prototype.split` with a single-character separator: splitting the empty string
yields `[""]`, and a trailing separator yields a trailing empty piece. -/
def splitOnChar (sep : Char) : List Char → List (List Char)
  | [] => [[]]
  | c :: rest =>
    let pieces := splitOnChar sep rest
    if c = sep then [] :: pieces
    else
      match pieces with
      | [] => [[c]]
      | piece :: more => (c :: piece) :: more

/-- Models `patch.split('\n')`. -/
def splitLines (s : String) : List String := (splitOnChar '\n' s.toList).map String.mk

/-- First index (if any) at which `pat` occurs as a contiguous sublist. -/
def findSub (pat : List Char) : List Char → Option Nat
  | [] => if pat.isEmpty then some 0 else none
  | c :: rest =>
    if pat.isPrefixOf (c :: rest) then some 0
    else (findSub pat rest).map (· + 1)

/-- One pass of the global non-greedy block-comment replacement
`line.replace(/\/\*.*?\*\//g, ' ')`: each `/*` with a following `*/` is replaced
(together with the shortest span between them) by a single space.  The fuel argument is
bounded by the list length; each step consumes at least one character, so starting the
recursion with the length of the input realizes the full replacement. -/
def stripBlockCommentsAux : Nat → List Char → List Char
  | 0, cs => cs
  | _, [] => []
  | fuel + 1, '/' :: '*' :: rest =>
    match findSub ['*', '/'] rest with
    | some i => ' ' :: stripBlockCommentsAux fuel (rest.drop (i + 2))
    | none => '/' :: stripBlockCommentsAux fuel ('*' :: rest)
  | fuel + 1, c :: rest => c :: stripBlockCommentsAux fuel rest

/-- Models `line.replace(/\/\*.*?\*\//g, ' ')`. -/
def stripBlockComments (cs : List Char) : List Char := stripBlockCommentsAux cs.length cs

/-- Models `line.replace(/X.*$/g, ' ')` for a literal marker `X` (used with `//`, `#`
and `--`): everything from the first occurrence of the marker to the end of the line is
replaced by a single space. -/
def stripLineComment (marker : List Char) (cs : List Char) : List Char :=
  match findSub marker cs with
  | some i => cs.take i ++ [' ']
  | none => cs

/-- Models `line.replace(/\s+/g, ' ')`: every maximal whitespace run becomes one space.
The flag records whether the previous character was part of a whitespace run. -/
def collapseWsAux : List Char → Bool → List Char
  | [], _ => []
  | c :: rest, prevWs =>
    if isWsChar c then
      if prevWs then collapseWsAux rest true else ' ' :: collapseWsAux rest true
    else c :: collapseWsAux rest false

/-- Models `line.replace(/\s+/g, ' ')`. -/
def collapseWs (cs : List Char) : List Char := collapseWsAux cs false

/- ===== src/core/utils.ts ===== -/

/-- Translation of `normalizeCodeLine` (src/core/utils.ts): trim, strip block comments,
strip `//`, `#` and `--` line comments, collapse whitespace, trim again, lowercase. -/
def normalizeCodeLine (value : String) : String :=
  let line := trimChars value.toList
  if line.isEmpty then "" else
  let line := stripBlockComments line
  let line := stripLineComment ['/', '/'] line
  let line := stripLineComment ['#'] line
  let line := stripLineComment ['-', '-'] line
  String.mk ((trimChars (collapseWs line)).map Char.toLower)

/-- Translation of `clamp` (src/core/utils.ts), polymorphic over the linearly ordered
number domain exactly as the single JS function serves both integral and fractional
values. -/
def clamp {α : Type} [LinearOrder α] (value lo hi : α) : α :=
  if value < lo then lo
  else if hi < value then hi
  else value

/-- Models `toSha256` (src/core/utils.ts), whose body is a call into Node's crypto
library (`createHash('sha256')`).  The digest is modeled as a deterministic, injective,
never-empty tagging of the input; no theorem in this development relies on any property
of SHA-256 beyond determinism and non-emptiness of the hex digest. -/
def toSha256 (value : String) : String := "sha256:" ++ value

/-- Translation of `normalizePath` (src/core/utils.ts): backslashes to slashes, then
trim. -/
def normalizePath (filename : String) : String :=
  jsTrim (String.mk (filename.toList.map (fun c => if c = '\\' then '/' else c)))

/-- Translation of `getTopLevelDirectory` (src/core/utils.ts). -/
def getTopLevelDirectory (filename : String) : String :=
  let normalized := normalizePath filename
  if normalized = "" then "." else
  match findSub ['/'] normalized.toList with
  | none => "."
  | some i => if i = 0 then "." else String.mk (normalized.toList.take i)

/-- Translation of `toFrequencyMap` (src/core/utils.ts).  The JS `Map` keeps each key at
its first-insertion position when its value is updated, so the model updates in place
and appends unseen tokens. -/
def toFrequencyMap (tokens : List String) : List (String × Nat) :=
  tokens.foldl
    (fun map token =>
      if map.any (fun p => p.1 == token) then
        map.map (fun p => if p.1 == token then (p.1, p.2 + 1) else p)
      else map ++ [(token, 1)])
    []

/-- One `Set.prototype.add`: append the element unless it is already present (JS sets
iterate in insertion order). -/
def addUnique (set : List String) (value : String) : List String :=
  if value ∈ set then set else set ++ [value]

/-- Iterated `Set.prototype.add` starting from an empty set: first-occurrence
deduplication in order. -/
def setFromList (l : List String) : List String := l.foldl addUnique []

/-- Translation of `mergeSets` (src/core/utils.ts): add every element of the source set
to the target set. -/
def mergeSets (target source : List String) : List String := source.foldl addUnique target

/- ===== src/core/pr-features.ts ===== -/

/-- The STOP_WORDS set of src/core/pr-features.ts. -/
def STOP_WORDS : List String :=
  ["a", "an", "and", "as", "at", "be", "by", "for", "from", "if", "in", "is", "it",
   "of", "on", "or", "that", "the", "to", "with"]

/-- Character class `[a-z0-9_]`, the complement of the token separator class of
`tokenizeLine`. -/
def isTokenChar (c : Char) : Bool :=
  ('a' ≤ c && c ≤ 'z') || ('0' ≤ c && c ≤ '9') || c = '_'

/-- The maximal runs of characters satisfying the predicate, in order.  Models
`String.prototype.split` on the complementary separator class: pieces that would be
empty are dropped, which is immaterial here because `tokenizeLine` filters out every
token of length ≤ 1 anyway. -/
def tokenRuns : List Char → List (List Char)
  | [] => []
  | c :: rest =>
    let runs := tokenRuns rest
    if isTokenChar c then
      match rest with
      | [] => [[c]]
      | d :: _ =>
        if isTokenChar d then
          match runs with
          | [] => [[c]]
          | run :: more => (c :: run) :: more
        else [c] :: runs
    else runs

/-- Translation of `tokenizeLine` (src/core/pr-features.ts): normalize the line, split
on `[^a-z0-9_]+`, trim each piece, keep pieces longer than one character that are not
stop words. -/
def tokenizeLine (value : String) : List String :=
  let normalized := normalizeCodeLine value
  if normalized = "" then [] else
  (((tokenRuns normalized.toList).map (fun run => jsTrim (String.mk run))).filter
    (fun token => decide (1 < token.length) && !(STOP_WORDS.contains token)))

/-- The regex tables of src/core/patterns.ts (IMPORT_PATTERNS,
FUNCTION_SIGNATURE_PATTERNS, CLASS_SIGNATURE_PATTERNS) are applied to each raw diff line
through `matchFirstGroup` (src/core/pr-features.ts), which returns the trimmed,
lowercased first capture group of the first matching pattern, or null.  The regexes
execute on the JavaScript regex engine; this development models the three
`matchFirstGroup(raw, …)` calls as an arbitrary matcher environment, and every theorem
below is proved uniformly in the environment, so each holds in particular for the
concrete regex tables. -/
structure MatcherEnv where
  importMatch : String → Option String
  functionMatch : String → Option String
  classMatch : String → Option String

/- ===== src/core/similarity.ts ===== -/

/-- Models the runtime's `Math.sqrt` over the rationals by an integer square root:
sqrt(num/den) is approximated as isqrt(num·den)/den.  It is deterministic, exact on
perfect squares, and zero exactly on inputs ≤ 0 — the only properties of the
floating-point square root that any statement below depends on.  The integer square
root itself uses a digit-recursion with explicit fuel so that it evaluates by kernel
reduction. -/
def isqrtAux : Nat → Nat → Nat → Nat
  | 0, _, acc => acc
  | fuel + 1, n, acc =>
    let candidate := acc + 2 ^ fuel
    if candidate * candidate ≤ n then isqrtAux fuel n candidate else isqrtAux fuel n acc

/-- Integer square root by 64-bit binary search (every magnitude the pipeline takes a
root of fits well below 2^128). -/
def isqrt (n : Nat) : Nat := isqrtAux 64 n 0

/-- Models `Math.sqrt` on the rationals; see `isqrtAux`. -/
def mathSqrt (q : ℚ) : ℚ := (isqrt (q.num.toNat * q.den) : ℚ) / (q.den : ℚ)

/-- Translation of `jaccardSimilarity` (src/core/similarity.ts).  JS sets are modeled as
duplicate-free lists; `emptySimilarity` is the explicit form of the defaulted third
parameter (callers pass 1 where the JS call site relies on the default). -/
def jaccardSimilarity (setA setB : List String) (emptySimilarity : ℚ) : ℚ :=
  if setA.length = 0 ∧ setB.length = 0 then emptySimilarity
  else
    let intersection := setA.countP (fun value => setB.contains value)
    let union := setA.length + setB.length - intersection
    if union = 0 then 0 else (intersection : ℚ) / (union : ℚ)

/-- Lookup in an association-list model of a JS `Map`. -/
def mapLookup (map : List (String × Nat)) (key : String) : Option Nat :=
  (map.find? (fun p => p.1 == key)).map (fun p => p.2)

/-- Translation of `cosineSimilarityFromMaps` (src/core/similarity.ts): iterate the
smaller map, look each token up in the larger one. -/
def cosineSimilarityFromMaps (mapA mapB : List (String × Nat)) : ℚ :=
  if mapA.length = 0 ∨ mapB.length = 0 then 0
  else
    let normA : ℚ := mapA.foldl (fun total p => total + (p.2 : ℚ) * (p.2 : ℚ)) 0
    let normB : ℚ := mapB.foldl (fun total p => total + (p.2 : ℚ) * (p.2 : ℚ)) 0
    let pair := if mapA.length ≤ mapB.length then (mapA, mapB) else (mapB, mapA)
    let dot : ℚ := pair.1.foldl
      (fun total p =>
        match mapLookup pair.2 p.1 with
        | some largerValue => total + (p.2 : ℚ) * (largerValue : ℚ)
        | none => total)
      0
    if normA = 0 ∨ normB = 0 then 0 else dot / (mathSqrt normA * mathSqrt normB)

/-- Translation of `cosineSimilarityFromVectors` (src/core/similarity.ts); the single
index loop over two equal-length vectors is expressed as a fold over their zip. -/
def cosineSimilarityFromVectors (vectorA vectorB : List ℚ) : ℚ :=
  if vectorA.length = 0 ∨ vectorB.length = 0 ∨ vectorA.length ≠ vectorB.length then 0
  else
    let dot : ℚ := (vectorA.zip vectorB).foldl (fun total p => total + p.1 * p.2) 0
    let normA : ℚ := vectorA.foldl (fun total a => total + a * a) 0
    let normB : ℚ := vectorB.foldl (fun total b => total + b * b) 0
    if normA = 0 ∨ normB = 0 then 0 else dot / (mathSqrt normA * mathSqrt normB)

/- ===== JS value coercions for configuration parsing (src/core/utils.ts) ===== -/

/-- A JavaScript configuration value as it may reach `normalizeDuplicateConfig`:
strings, numbers (integral numbers and general finite decimals are split into two
constructors for exact modeling), booleans, `null`, and an explicitly-present
`undefined`. -/
inductive JsVal where
  | str (s : String)
  | int (n : Int)
  | rat (q : ℚ)
  | bool (b : Bool)
  | nullv
  | undef
deriving DecidableEq

/-- Decimal digit value of a character, if any. -/
def digitVal (c : Char) : Option Nat :=
  if '0' ≤ c && c ≤ '9' then some (c.toNat - '0'.toNat) else none

/-- Longest leading run of decimal digits, with the rest of the input. -/
def takeDigits : List Char → List Nat × List Char
  | [] => ([], [])
  | c :: rest =>
    match digitVal c with
    | some d =>
      let p := takeDigits rest
      (d :: p.1, p.2)
    | none => ([], c :: rest)

/-- Value of a digit list read most-significant first. -/
def natOfDigits (ds : List Nat) : Nat := ds.foldl (fun acc d => acc * 10 + d) 0

/-- Leading sign of a numeric literal, with the rest of the input. -/
def takeSign : List Char → Bool × List Char
  | '-' :: rest => (true, rest)
  | '+' :: rest => (false, rest)
  | cs => (false, cs)

/-- Models `Number.parseInt(s, 10)`: skip whitespace, optional sign, then the longest
leading digit run; NaN (modeled as `none`) when no digit is found. -/
def jsParseInt (s : String) : Option Int :=
  let cs := s.toList.dropWhile isWsChar
  let sign := takeSign cs
  let digits := takeDigits sign.2
  if digits.1.isEmpty then none
  else some (if sign.1 then -(natOfDigits digits.1 : Int) else (natOfDigits digits.1 : Int))

/-- Models `Number.parseFloat(s)`: skip whitespace, optional sign, then the longest
leading decimal literal `digits [. digits] [e [sign] digits]`; NaN (modeled as `none`)
when no mantissa digit is found.  (The special literal `Infinity` is not modeled; no
configuration value in range uses it.) -/
def jsParseFloat (s : String) : Option ℚ :=
  let cs := s.toList.dropWhile isWsChar
  let sign := takeSign cs
  let ip := takeDigits sign.2
  let fp :=
    match ip.2 with
    | '.' :: rest => takeDigits rest
    | cs' => ([], cs')
  if ip.1.isEmpty ∧ fp.1.isEmpty then none
  else
    let mantissa : ℚ := (natOfDigits ip.1 : ℚ) + (natOfDigits fp.1 : ℚ) / ((10 : ℚ) ^ fp.1.length)
    let exponent : Int :=
      match fp.2 with
      | 'e' :: rest =>
        let esign := takeSign rest
        let eds := takeDigits esign.2
        if eds.1.isEmpty then 0
        else if esign.1 then -(natOfDigits eds.1 : Int) else (natOfDigits eds.1 : Int)
      | 'E' :: rest =>
        let esign := takeSign rest
        let eds := takeDigits esign.2
        if eds.1.isEmpty then 0
        else if esign.1 then -(natOfDigits eds.1 : Int) else (natOfDigits eds.1 : Int)
      | _ => 0
    let value := mantissa * (10 : ℚ) ^ exponent
    some (if sign.1 then -value else value)

/-- Models the relevant cases of the JS `String(value)` coercion as used by
`parseBoolean`: a non-integral number renders with a decimal point or exponent and so
can never equal one of the recognized boolean words; it is collapsed to a single
placeholder rendering here. -/
def jsDisplay : JsVal → String
  | .str s => s
  | .int n => toString n
  | .rat q => if q.den = 1 then toString q.num else "#decimal"
  | .bool true => "true"
  | .bool false => "false"
  | .nullv => "null"
  | .undef => "undefined"

/-- Translation of `parseBoolean` (src/core/utils.ts) over JS values. -/
def parseBoolean (value : JsVal) (fallback : Bool) : Bool :=
  match value with
  | .undef => fallback
  | .nullv => fallback
  | .str "" => fallback
  | v =>
    let normalized := jsToLower (jsTrim (jsDisplay v))
    if ["1", "true", "yes", "y", "on"].contains normalized then true
    else if ["0", "false", "no", "n", "off"].contains normalized then false
    else fallback

/-- Translation of `parseInteger` (src/core/utils.ts) over JS values:
`Number.parseInt(String(value), 10)` with the fallback on NaN.  `String` of an integral
number reparses to itself; of a finite decimal, to its truncation toward zero (numbers
large enough to render in exponent notation never survive the clamps that follow every
call); of a boolean, `null` or `undefined`, to NaN. -/
def parseInteger (value : JsVal) (fallback : Int) : Int :=
  match value with
  | .str s => (jsParseInt s).getD fallback
  | .int n => n
  | .rat q => q.num.tdiv (q.den : Int)
  | _ => fallback

/-- Translation of `parseNumber` (src/core/utils.ts) over JS values:
`Number.parseFloat(String(value))` with the fallback on NaN. -/
def parseNumber (value : JsVal) (fallback : ℚ) : ℚ :=
  match value with
  | .str s => (jsParseFloat s).getD fallback
  | .int n => (n : ℚ)
  | .rat q => q
  | _ => fallback

/- ===== Configuration (src/duplicate-pr.ts) ===== -/

/-- The normalized duplicate-detection configuration: the record produced by
`normalizeDuplicateConfig`.  Counts are integers (products of `parseInteger` and
integral clamps); thresholds are JS numbers, modeled as rationals. -/
structure DuplicateConfig where
  enabled : Bool
  onlyOnOpened : Bool
  maxOpenCandidates : Int
  maxMergedCandidates : Int
  maxCandidateComparisons : Int
  mergedLookbackDays : Int
  fileCountDeltaThreshold : Int
  topLevelDirOverlapThreshold : ℚ
  fileOverlapThreshold : ℚ
  structuralSimilarityThreshold : ℚ
  metadataSimilarityThreshold : ℚ
  candidateFetchConcurrency : Int
  maxPatchCharactersPerFile : Int
  metadataVectorSize : Int
  maxReportedMatches : Int
deriving DecidableEq

/-- DEFAULT_DUPLICATE_CONFIG (src/duplicate-pr.ts). -/
def DEFAULT_DUPLICATE_CONFIG : DuplicateConfig :=
  { enabled := true
    onlyOnOpened := false
    maxOpenCandidates := 80
    maxMergedCandidates := 140
    maxCandidateComparisons := 60
    mergedLookbackDays := 180
    fileCountDeltaThreshold := 8
    topLevelDirOverlapThreshold := 0.5
    fileOverlapThreshold := 0.7
    structuralSimilarityThreshold := 0.72
    metadataSimilarityThreshold := 0.84
    candidateFetchConcurrency := 4
    maxPatchCharactersPerFile := 12000
    metadataVectorSize := 256
    maxReportedMatches := 3 }

/-- The raw override object handed to `normalizeDuplicateConfig`: any subset of the
configuration keys may be present, each carrying an arbitrary JS value.  An absent key
(`none`) is filled from DEFAULT_DUPLICATE_CONFIG by the object spread
`{ ...DEFAULT_DUPLICATE_CONFIG, ...inputConfig }` before parsing. -/
structure DuplicateConfigInput where
  enabled : Option JsVal := none
  onlyOnOpened : Option JsVal := none
  maxOpenCandidates : Option JsVal := none
  maxMergedCandidates : Option JsVal := none
  maxCandidateComparisons : Option JsVal := none
  mergedLookbackDays : Option JsVal := none
  fileCountDeltaThreshold : Option JsVal := none
  topLevelDirOverlapThreshold : Option JsVal := none
  fileOverlapThreshold : Option JsVal := none
  structuralSimilarityThreshold : Option JsVal := none
  metadataSimilarityThreshold : Option JsVal := none
  candidateFetchConcurrency : Option JsVal := none
  maxPatchCharactersPerFile : Option JsVal := none
  metadataVectorSize : Option JsVal := none
  maxReportedMatches : Option JsVal := none
deriving DecidableEq

/-- Translation of `normalizeDuplicateConfig` (src/duplicate-pr.ts).  The object spread
with the defaults is realized by `Option.getD` with the default's value (a number or
boolean, which the parse functions map to itself). -/
def normalizeDuplicateConfig (inputConfig : DuplicateConfigInput) : DuplicateConfig :=
  { enabled := parseBoolean (inputConfig.enabled.getD (.bool true)) DEFAULT_DUPLICATE_CONFIG.enabled
    onlyOnOpened :=
      parseBoolean (inputConfig.onlyOnOpened.getD (.bool false)) DEFAULT_DUPLICATE_CONFIG.onlyOnOpened
    maxOpenCandidates :=
      clamp (parseInteger (inputConfig.maxOpenCandidates.getD (.int 80)) 80) 1 400
    maxMergedCandidates :=
      clamp (parseInteger (inputConfig.maxMergedCandidates.getD (.int 140)) 140) 1 600
    maxCandidateComparisons :=
      clamp (parseInteger (inputConfig.maxCandidateComparisons.getD (.int 60)) 60) 1 200
    mergedLookbackDays :=
      clamp (parseInteger (inputConfig.mergedLookbackDays.getD (.int 180)) 180) 1 1000
    fileCountDeltaThreshold :=
      clamp (parseInteger (inputConfig.fileCountDeltaThreshold.getD (.int 8)) 8) 0 100
    topLevelDirOverlapThreshold :=
      clamp (parseNumber (inputConfig.topLevelDirOverlapThreshold.getD (.rat 0.5)) 0.5) 0 1
    fileOverlapThreshold :=
      clamp (parseNumber (inputConfig.fileOverlapThreshold.getD (.rat 0.7)) 0.7) 0 1
    structuralSimilarityThreshold :=
      clamp
        (parseNumber (inputConfig.structuralSimilarityThreshold.getD (.rat 0.72))
          DEFAULT_DUPLICATE_CONFIG.structuralSimilarityThreshold)
        0 1
    metadataSimilarityThreshold :=
      clamp
        (parseNumber (inputConfig.metadataSimilarityThreshold.getD (.rat 0.84))
          DEFAULT_DUPLICATE_CONFIG.metadataSimilarityThreshold)
        0 1
    candidateFetchConcurrency :=
      clamp (parseInteger (inputConfig.candidateFetchConcurrency.getD (.int 4)) 4) 1 12
    maxPatchCharactersPerFile :=
      clamp (parseInteger (inputConfig.maxPatchCharactersPerFile.getD (.int 12000)) 12000) 200 100000
    metadataVectorSize :=
      clamp (parseInteger (inputConfig.metadataVectorSize.getD (.int 256)) 256) 32 2048
    maxReportedMatches :=
      clamp (parseInteger (inputConfig.maxReportedMatches.getD (.int 3)) 3) 1 10 }

/- ===== GitHub data records ===== -/

/-- The `base` object of a pull-request record. -/
structure GithubBase where
  ref : Option String
deriving DecidableEq

/-- The `head` object of a pull-request record. -/
structure GithubHead where
  sha : Option String
deriving DecidableEq

/-- A pull-request record as consumed by the pipeline.  Every field the code reads
through `||`/`&&` truthiness guards is an `Option` (with the empty string additionally
treated as falsy where the code does so). -/
structure GithubPullRequest where
  id : Int
  number : Int
  title : Option String
  body : Option String
  html_url : Option String
  base : Option GithubBase
  head : Option GithubHead
  state : Option String
  merged_at : Option String
  updated_at : Option String
  created_at : Option String
  changed_files : Option Int
deriving DecidableEq

/-- A changed-file record from the files listing: `filename` and optional `patch`
text (absent for binary or oversized files; the code checks `typeof file.patch ===
'string'`). -/
structure ChangedFile where
  filename : Option String
  patch : Option String
deriving DecidableEq

/-- JS truthiness of an optional string: absent and empty are falsy. -/
def truthyStr : Option String → Bool
  | some s => !(s == "")
  | none => false

/-- Models `value || null` on an optional string. -/
def jsOrNull (value : Option String) : Option String :=
  if truthyStr value then value else none

/-- Models `value || ''` on an optional string (both `undefined` and `''` give `''`). -/
def jsOrEmpty (value : Option String) : String := (·.getD "") value

/- ===== Feature extraction (src/duplicate-pr.ts buildFileFeatures) ===== -/

/-- Per-file features accumulated by `buildFileFeatures`: normalized lines and tokens in
encounter order, and the per-file symbol sets in insertion order. -/
structure FileFeatures where
  filename : String
  topLevelDirectory : String
  addedLines : List String
  removedLines : List String
  addedTokens : List String
  removedTokens : List String
  importsAdded : List String
  importsRemoved : List String
  changedFunctions : List String
  changedClasses : List String
deriving DecidableEq

/-- Models `if (match) set.add(match)`: a null or empty (falsy) match is not added. -/
def addMatch (set : List String) (m : Option String) : List String :=
  match m with
  | some s => if s = "" then set else addUnique set s
  | none => set

/-- The per-line body of the `buildFileFeatures` loop. -/
def buildFileFeaturesStep (menv : MatcherEnv) (features : FileFeatures) (line : String) :
    FileFeatures :=
  if line == "" || jsStartsWith line "@@" then features
  else if jsStartsWith line "+++" || jsStartsWith line "---" then features
  else
    let isAdded := jsStartsWith line "+"
    let isRemoved := jsStartsWith line "-"
    if !isAdded && !isRemoved then features
    else
      let raw := jsDropOne line
      let normalized := normalizeCodeLine raw
      if normalized == "" then features
      else
        let importMatch := menv.importMatch raw
        let functionMatch := menv.functionMatch raw
        let classMatch := menv.classMatch raw
        let features :=
          if isAdded then
            { features with
              addedLines := features.addedLines ++ [normalized]
              addedTokens := features.addedTokens ++ tokenizeLine raw
              importsAdded := addMatch features.importsAdded importMatch }
          else features
        let features :=
          if isRemoved then
            { features with
              removedLines := features.removedLines ++ [normalized]
              removedTokens := features.removedTokens ++ tokenizeLine raw
              importsRemoved := addMatch features.importsRemoved importMatch }
          else features
        let features :=
          { features with changedFunctions := addMatch features.changedFunctions functionMatch }
        { features with changedClasses := addMatch features.changedClasses classMatch }

/-- Translation of `buildFileFeatures` (src/duplicate-pr.ts): truncate the patch text to
the per-file character cap, split into lines, and fold the per-line extraction. -/
def buildFileFeatures (menv : MatcherEnv) (file : ChangedFile) (config : DuplicateConfig) :
    FileFeatures :=
  let filename := normalizePath (jsOrEmpty file.filename)
  let patchSource := (·.getD "") file.patch
  let patch := jsTake patchSource config.maxPatchCharactersPerFile.toNat
  let lines := splitLines patch
  lines.foldl (buildFileFeaturesStep menv)
    { filename := filename
      topLevelDirectory := getTopLevelDirectory filename
      addedLines := []
      removedLines := []
      addedTokens := []
      removedTokens := []
      importsAdded := []
      importsRemoved := []
      changedFunctions := []
      changedClasses := [] }

/- ===== Representation builder (src/duplicate-pr.ts) ===== -/

/-- Translation of `fnv1aHash32` (src/duplicate-pr.ts): FNV-1a over the character codes,
on 32-bit unsigned arithmetic (`Math.imul` and the final `>>> 0` amount to arithmetic
modulo 2^32; the XOR of a value below 2^32 with a character code is the same in two's
complement and in ℕ). -/
def fnv1aHash32 (value : String) : Nat :=
  value.toList.foldl (fun hash c => (hash ^^^ c.toNat) * 0x01000193 % 4294967296) 0x811c9dc5

/-- JS string comparison (`Array.prototype.sort` default ordering restricted to string
arrays compared by `<`): lexicographic on character codes. -/
def charListLe : List Char → List Char → Bool
  | [], _ => true
  | _ :: _, [] => false
  | a :: as, b :: bs =>
    if a.toNat < b.toNat then true
    else if b.toNat < a.toNat then false
    else charListLe as bs

/-- JS string ordering on strings. -/
def strLeB (a b : String) : Bool := charListLe a.toList b.toList

/-- Models `[...values].sort()` on an array of strings. -/
def sortStrings (l : List String) : List String := l.mergeSort strLeB

/-- Translation of `buildFeatureHashVector` (src/duplicate-pr.ts): hash every token of
the text into a signed bucket of a fixed-size vector, then L2-normalize (the zero vector
stays as-is). -/
def buildFeatureHashVector (text : String) (vectorSize : Nat) : List ℚ :=
  let tokens := tokenizeLine text
  let vector := tokens.foldl
    (fun vector token =>
      let hash := fnv1aHash32 token
      let index := hash % vectorSize
      let sign : ℚ := if hash % 2 = 0 then 1 else -1
      vector.set index (vector.getD index 0 + sign))
    (List.replicate vectorSize (0 : ℚ))
  let magnitude := mathSqrt (vector.foldl (fun total value => total + value * value) 0)
  if magnitude = 0 then vector else vector.map (fun value => value / magnitude)

/-- The per-file features of a file list, in order (the `files.map(buildFileFeatures)`
of `buildPullRequestRepresentation`). -/
def fileFeaturesOf (menv : MatcherEnv) (files : List ChangedFile) (config : DuplicateConfig) :
    List FileFeatures :=
  files.map (fun file => buildFileFeatures menv file config)

/-- The `fileSet` accumulated by `buildPullRequestRepresentation`: each feature's
filename added to a JS `Set` in order. -/
def fileSetOf (menv : MatcherEnv) (files : List ChangedFile) (config : DuplicateConfig) :
    List String :=
  setFromList ((fileFeaturesOf menv files config).map (fun f => f.filename))

/-- The `topLevelDirectories` set of `buildPullRequestRepresentation`. -/
def topLevelDirectoriesOf (menv : MatcherEnv) (files : List ChangedFile)
    (config : DuplicateConfig) : List String :=
  setFromList ((fileFeaturesOf menv files config).map (fun f => f.topLevelDirectory))

/-- The `changedFunctions` set of `buildPullRequestRepresentation`: `mergeSets` of every
per-file set into an initially empty set, i.e. first-occurrence deduplication of the
concatenation. -/
def changedFunctionsOf (menv : MatcherEnv) (files : List ChangedFile)
    (config : DuplicateConfig) : List String :=
  setFromList ((fileFeaturesOf menv files config).flatMap (fun f => f.changedFunctions))

/-- The `changedClasses` set of `buildPullRequestRepresentation`. -/
def changedClassesOf (menv : MatcherEnv) (files : List ChangedFile)
    (config : DuplicateConfig) : List String :=
  setFromList ((fileFeaturesOf menv files config).flatMap (fun f => f.changedClasses))

/-- The `importsAdded` set of `buildPullRequestRepresentation`. -/
def importsAddedOf (menv : MatcherEnv) (files : List ChangedFile)
    (config : DuplicateConfig) : List String :=
  setFromList ((fileFeaturesOf menv files config).flatMap (fun f => f.importsAdded))

/-- The `importsRemoved` set of `buildPullRequestRepresentation`. -/
def importsRemovedOf (menv : MatcherEnv) (files : List ChangedFile)
    (config : DuplicateConfig) : List String :=
  setFromList ((fileFeaturesOf menv files config).flatMap (fun f => f.importsRemoved))

/-- The `allAddedLines` accumulator of `buildPullRequestRepresentation`: the per-file
normalized added lines concatenated in file order. -/
def allAddedLinesOf (menv : MatcherEnv) (files : List ChangedFile) (config : DuplicateConfig) :
    List String :=
  (fileFeaturesOf menv files config).flatMap (fun f => f.addedLines)

/-- The `allRemovedLines` accumulator of `buildPullRequestRepresentation`. -/
def allRemovedLinesOf (menv : MatcherEnv) (files : List ChangedFile) (config : DuplicateConfig) :
    List String :=
  (fileFeaturesOf menv files config).flatMap (fun f => f.removedLines)

/-- The `allAddedTokens` accumulator of `buildPullRequestRepresentation`. -/
def allAddedTokensOf (menv : MatcherEnv) (files : List ChangedFile) (config : DuplicateConfig) :
    List String :=
  (fileFeaturesOf menv files config).flatMap (fun f => f.addedTokens)

/-- The `allRemovedTokens` accumulator of `buildPullRequestRepresentation`. -/
def allRemovedTokensOf (menv : MatcherEnv) (files : List ChangedFile) (config : DuplicateConfig) :
    List String :=
  (fileFeaturesOf menv files config).flatMap (fun f => f.removedTokens)

/-- `sortedFiles` of `buildPullRequestRepresentation`. -/
def sortedFilesOf (menv : MatcherEnv) (files : List ChangedFile) (config : DuplicateConfig) :
    List String :=
  sortStrings (fileSetOf menv files config)

/-- `sortedAddedLines` of `buildPullRequestRepresentation`. -/
def sortedAddedLinesOf (menv : MatcherEnv) (files : List ChangedFile) (config : DuplicateConfig) :
    List String :=
  sortStrings (allAddedLinesOf menv files config)

/-- `sortedRemovedLines` of `buildPullRequestRepresentation`. -/
def sortedRemovedLinesOf (menv : MatcherEnv) (files : List ChangedFile)
    (config : DuplicateConfig) : List String :=
  sortStrings (allRemovedLinesOf menv files config)

/-- `filePathHash` of `buildPullRequestRepresentation`: digest of the sorted file list
joined by newlines. -/
def filePathHashOf (menv : MatcherEnv) (files : List ChangedFile) (config : DuplicateConfig) :
    String :=
  toSha256 (String.intercalate "\n" (sortedFilesOf menv files config))

/-- `normalizedDiffHash` of `buildPullRequestRepresentation`: digest of the sorted added
lines tagged `+` and sorted removed lines tagged `-`, between the `A` and `R` section
markers, joined by newlines. -/
def normalizedDiffHashOf (menv : MatcherEnv) (files : List ChangedFile)
    (config : DuplicateConfig) : String :=
  toSha256 (String.intercalate "\n"
    ("A" :: (sortedAddedLinesOf menv files config).map (fun line => "+" ++ line) ++
      "R" :: (sortedRemovedLinesOf menv files config).map (fun line => "-" ++ line)))

/-- `patchFingerprint` of `buildPullRequestRepresentation`: digest of untagged sorted
added lines then sorted removed lines. -/
def patchFingerprintOf (menv : MatcherEnv) (files : List ChangedFile)
    (config : DuplicateConfig) : String :=
  toSha256 (String.intercalate "\n"
    ("A" :: sortedAddedLinesOf menv files config ++
      "R" :: sortedRemovedLinesOf menv files config))

/-- `inversePatchFingerprint` of `buildPullRequestRepresentation`: the same digest with
the added and removed sections deliberately swapped. -/
def inversePatchFingerprintOf (menv : MatcherEnv) (files : List ChangedFile)
    (config : DuplicateConfig) : String :=
  toSha256 (String.intercalate "\n"
    ("A" :: sortedRemovedLinesOf menv files config ++
      "R" :: sortedAddedLinesOf menv files config))

/-- The `metadataText` of `buildPullRequestRepresentation`: trimmed title and body plus
the structural-signal summaries, empty (falsy) parts filtered out, joined by newlines. -/
def metadataTextOf (menv : MatcherEnv) (pr : GithubPullRequest) (files : List ChangedFile)
    (config : DuplicateConfig) : String :=
  String.intercalate "\n"
    (([jsTrim (jsOrEmpty pr.title),
       jsTrim (jsOrEmpty pr.body),
       "files " ++ String.intercalate " " (sortedFilesOf menv files config),
       "functions " ++ String.intercalate " " (sortStrings (changedFunctionsOf menv files config)),
       "classes " ++ String.intercalate " " (sortStrings (changedClassesOf menv files config)),
       "imports added " ++ String.intercalate " " (sortStrings (importsAddedOf menv files config)),
       "imports removed " ++
         String.intercalate " " (sortStrings (importsRemovedOf menv files config))]).filter
      (fun s => !(s == "")))

/-- The `baseRef` scalar of the representation: `pr.base && pr.base.ref ? pr.base.ref :
''` (an empty ref is falsy, so every falsy case yields `''`). -/
def baseRefOf (pr : GithubPullRequest) : String :=
  match pr.base with
  | some b => jsOrEmpty b.ref
  | none => ""

/-- A pull-request representation (the record built by
`buildPullRequestRepresentation`). -/
structure PullRequestRepresentation where
  prNumber : Int
  prId : Int
  title : String
  body : String
  htmlUrl : String
  baseRef : String
  state : String
  mergedAt : Option String
  fileSet : List String
  topLevelDirectories : List String
  fileCount : Int
  changedFunctions : List String
  changedClasses : List String
  importsAdded : List String
  importsRemoved : List String
  addedTokenFrequency : List (String × Nat)
  removedTokenFrequency : List (String × Nat)
  metadataTokenVector : List ℚ
  filePathHash : String
  normalizedDiffHash : String
  patchFingerprint : String
  inversePatchFingerprint : String
deriving DecidableEq

/-- Translation of `buildPullRequestRepresentation` (src/duplicate-pr.ts), with the
function's local accumulators and digests factored into the named helper definitions
above. -/
def buildPullRequestRepresentation (menv : MatcherEnv) (pr : GithubPullRequest)
    (files : List ChangedFile) (config : DuplicateConfig) : PullRequestRepresentation :=
  { prNumber := pr.number
    prId := pr.id
    title := jsOrEmpty pr.title
    body := jsOrEmpty pr.body
    htmlUrl := jsOrEmpty pr.html_url
    baseRef := baseRefOf pr
    state := (match pr.state with | some s => if s = "" then "open" else s | none => "open")
    mergedAt := jsOrNull pr.merged_at
    fileSet := fileSetOf menv files config
    topLevelDirectories := topLevelDirectoriesOf menv files config
    fileCount := ((sortedFilesOf menv files config).length : Int)
    changedFunctions := changedFunctionsOf menv files config
    changedClasses := changedClassesOf menv files config
    importsAdded := importsAddedOf menv files config
    importsRemoved := importsRemovedOf menv files config
    addedTokenFrequency := toFrequencyMap (allAddedTokensOf menv files config)
    removedTokenFrequency := toFrequencyMap (allRemovedTokensOf menv files config)
    metadataTokenVector :=
      buildFeatureHashVector (metadataTextOf menv pr files config) config.metadataVectorSize.toNat
    filePathHash := filePathHashOf menv files config
    normalizedDiffHash := normalizedDiffHashOf menv files config
    patchFingerprint := patchFingerprintOf menv files config
    inversePatchFingerprint := inversePatchFingerprintOf menv files config }

/- ===== Similarity evaluator (src/duplicate-pr.ts evaluateCandidateSimilarity) ===== -/

/-- The `fileOverlap` metric: Jaccard of the file sets, empty-vs-empty = 1 (the defaulted
third argument of `jaccardSimilarity`). -/
def fileOverlapOf (cur cand : PullRequestRepresentation) : ℚ :=
  jaccardSimilarity cur.fileSet cand.fileSet 1

/-- The `patchIdMatch` flag: equal non-empty patch fingerprints. -/
def patchIdMatchB (cur cand : PullRequestRepresentation) : Bool :=
  decide (0 < cur.patchFingerprint.length) && (cur.patchFingerprint == cand.patchFingerprint)

/-- The `inversePatchMatch` flag: the current fingerprint equals the candidate's inverse
fingerprint (revert signal). -/
def inversePatchMatchB (cur cand : PullRequestRepresentation) : Bool :=
  decide (0 < cur.patchFingerprint.length) &&
    (cur.patchFingerprint == cand.inversePatchFingerprint)

/-- The `normalizedDiffHashMatch` flag. -/
def normalizedDiffHashMatchB (cur cand : PullRequestRepresentation) : Bool :=
  decide (0 < cur.normalizedDiffHash.length) &&
    (cur.normalizedDiffHash == cand.normalizedDiffHash)

/-- The `filePathHashMatch` flag. -/
def filePathHashMatchB (cur cand : PullRequestRepresentation) : Bool :=
  decide (0 < cur.filePathHash.length) && (cur.filePathHash == cand.filePathHash)

/-- The `exactDuplicate` classification: a patch-id match, or matching normalized diff
hash and file-path hash together with file overlap at or above the hard threshold. -/
def exactDuplicateB (cur cand : PullRequestRepresentation) (config : DuplicateConfig) : Bool :=
  patchIdMatchB cur cand ||
    (normalizedDiffHashMatchB cur cand && filePathHashMatchB cur cand &&
      decide (config.fileOverlapThreshold ≤ fileOverlapOf cur cand))

/-- The `metadataDuplicate` classification: file overlap, structural similarity and
metadata similarity all at or above their thresholds. -/
def metadataDuplicateB (cur cand : PullRequestRepresentation) (config : DuplicateConfig) :
    Bool :=
  decide (config.fileOverlapThreshold ≤ fileOverlapOf cur cand) &&
    decide (config.structuralSimilarityThreshold ≤
      cosineSimilarityFromMaps cur.addedTokenFrequency cand.addedTokenFrequency) &&
    decide (config.metadataSimilarityThreshold ≤
      cosineSimilarityFromVectors cur.metadataTokenVector cand.metadataTokenVector)

/-- The per-metric scores of one comparison. -/
structure SimilarityMetrics where
  fileOverlap : ℚ
  topLevelDirOverlap : ℚ
  fileCountDelta : Int
  structuralSimilarity : ℚ
  metadataSimilarity : ℚ
  functionOverlap : ℚ
  classOverlap : ℚ
  importOverlap : ℚ
  patchIdMatch : Bool
  inversePatchMatch : Bool
  normalizedDiffHashMatch : Bool
  filePathHashMatch : Bool
deriving DecidableEq

/-- The result record of `evaluateCandidateSimilarity`. -/
structure DuplicateSimilarity where
  reason : String
  confidence : ℚ
  isDuplicate : Bool
  isRevert : Bool
  passesCandidateFilter : Bool
  metrics : SimilarityMetrics
deriving DecidableEq

/-- Translation of `evaluateCandidateSimilarity` (src/duplicate-pr.ts), with its local
boolean classifications factored into the named definitions above. -/
def evaluateCandidateSimilarity (cur cand : PullRequestRepresentation)
    (config : DuplicateConfig) : DuplicateSimilarity :=
  let fileOverlap := fileOverlapOf cur cand
  let topLevelDirOverlap :=
    jaccardSimilarity cur.topLevelDirectories cand.topLevelDirectories 1
  let fileCountDelta : Int := ((cur.fileCount - cand.fileCount).natAbs : Int)
  let structuralSimilarity :=
    cosineSimilarityFromMaps cur.addedTokenFrequency cand.addedTokenFrequency
  let metadataSimilarity :=
    cosineSimilarityFromVectors cur.metadataTokenVector cand.metadataTokenVector
  let functionOverlap := jaccardSimilarity cur.changedFunctions cand.changedFunctions 0
  let classOverlap := jaccardSimilarity cur.changedClasses cand.changedClasses 0
  let importOverlap := jaccardSimilarity cur.importsAdded cand.importsAdded 0
  let passesCandidateFilter :=
    decide (fileCountDelta ≤ config.fileCountDeltaThreshold) &&
      decide (config.topLevelDirOverlapThreshold ≤ topLevelDirOverlap)
  let exactDuplicate := exactDuplicateB cur cand config
  let metadataDuplicate := metadataDuplicateB cur cand config
  let isDuplicate := exactDuplicate || metadataDuplicate
  let confidence : ℚ :=
    if exactDuplicate then 1
    else if inversePatchMatchB cur cand then 0.96
    else
      clamp
        (fileOverlap * 0.34 + structuralSimilarity * 0.32 + metadataSimilarity * 0.22 +
          max functionOverlap (max classOverlap importOverlap) * 0.12)
        0 0.999
  let reason :=
    if exactDuplicate then
      if patchIdMatchB cur cand then "patch-id-match" else "normalized-diff-hash-match"
    else if metadataDuplicate then "structural-and-metadata-match"
    else if inversePatchMatchB cur cand then "inverse-patch-match"
    else "none"
  { reason := reason
    confidence := confidence
    isDuplicate := isDuplicate
    isRevert := inversePatchMatchB cur cand
    passesCandidateFilter := passesCandidateFilter
    metrics :=
      { fileOverlap := fileOverlap
        topLevelDirOverlap := topLevelDirOverlap
        fileCountDelta := fileCountDelta
        structuralSimilarity := structuralSimilarity
        metadataSimilarity := metadataSimilarity
        functionOverlap := functionOverlap
        classOverlap := classOverlap
        importOverlap := importOverlap
        patchIdMatch := patchIdMatchB cur cand
        inversePatchMatch := inversePatchMatchB cur cand
        normalizedDiffHashMatch := normalizedDiffHashMatchB cur cand
        filePathHashMatch := filePathHashMatchB cur cand } }

/- ===== Representation cache (the pr-cache module) ===== -/

/-- REPRESENTATION_CACHE_MAX_ENTRIES of the cache module. -/
def REPRESENTATION_CACHE_MAX_ENTRIES : Nat := 2000

/-- The module-level `representationCache`: a JS `Map` in insertion order, oldest entry
first, most recently inserted last. -/
def RepresentationCache : Type := List (String × PullRequestRepresentation)

/-- Translation of `getRepresentationCacheKey`: the `|`-joined tuple of owner, repo,
number, update timestamp, head revision and the two content-relevant configuration
values. -/
def getRepresentationCacheKey (owner repo : String) (pullRequest : GithubPullRequest)
    (config : DuplicateConfig) : String :=
  let updatedAt := jsOrEmpty pullRequest.updated_at
  let headSha :=
    match pullRequest.head with
    | some h => jsOrEmpty h.sha
    | none => ""
  String.intercalate "|"
    [owner, repo, toString pullRequest.number, updatedAt, headSha,
      toString config.maxPatchCharactersPerFile, toString config.metadataVectorSize]

/-- Translation of `getCachedRepresentation`: on a hit the entry is deleted and
re-inserted, which moves it to the most-recently-used (last) position; the cached value
is always a representation record and hence never falsy. -/
def getCachedRepresentation (cacheKey : String) (cache : RepresentationCache) :
    Option PullRequestRepresentation × RepresentationCache :=
  match cache.find? (fun p => p.1 == cacheKey) with
  | none => (none, cache)
  | some entry =>
    (some entry.2, cache.filter (fun p => !(p.1 == cacheKey)) ++ [(cacheKey, entry.2)])

/-- The `while (size > MAX) delete oldest` loop of `setCachedRepresentation`.  Each
iteration removes the first (oldest) entry; the fuel starts at the length of the cache,
which bounds the number of iterations the JS loop can perform. -/
def evictOldestAux : Nat → RepresentationCache → RepresentationCache
  | 0, cache => cache
  | fuel + 1, cache =>
    if REPRESENTATION_CACHE_MAX_ENTRIES < cache.length then evictOldestAux fuel cache.tail
    else cache

/-- The eviction loop of `setCachedRepresentation`. -/
def evictOldest (cache : RepresentationCache) : RepresentationCache :=
  evictOldestAux cache.length cache

/-- Translation of `setCachedRepresentation`: delete any same-key entry, append the new
entry at the most-recently-used position, then evict oldest-first down to the bound. -/
def setCachedRepresentation (cacheKey : String) (representation : PullRequestRepresentation)
    (cache : RepresentationCache) : RepresentationCache :=
  let cache :=
    if cache.any (fun p => p.1 == cacheKey) then cache.filter (fun p => !(p.1 == cacheKey))
    else cache
  evictOldest (cache ++ [(cacheKey, representation)])

/- ===== Candidate retrieval (src/core/github.ts collectPullRequests) ===== -/

/-- The milliseconds in a day, as in `mergedLookbackDays * 24 * 60 * 60 * 1000`. -/
def MS_PER_DAY : Int := 86400000

/-- The per-candidate filter of the inner loop of `collectPullRequests`: for the
`closed` state, skip never-merged entries (a falsy `merged_at`), entries whose merge
timestamp does not parse (`Date.parse` NaN), and entries merged before the lookback
window.  `dateParse` models the JS `Date.parse` of the runtime (`none` = NaN). -/
def keepCandidate (state : String) (lookbackMs nowMs : Int) (dateParse : String → Option Int)
    (pullRequest : GithubPullRequest) : Bool :=
  if state = "closed" then
    match pullRequest.merged_at with
    | none => false
    | some mergedAt =>
      if mergedAt = "" then false
      else
        match dateParse mergedAt with
        | none => false
        | some mergedAtMs => decide (nowMs - mergedAtMs ≤ lookbackMs)
  else true

/-- The inner `for (const pullRequest of pullRequests)` loop of `collectPullRequests`:
push each kept candidate and break once the limit is reached. -/
def collectFromPage (state : String) (lookbackMs nowMs : Int) (dateParse : String → Option Int)
    (limit : Nat) : List GithubPullRequest → List GithubPullRequest → List GithubPullRequest
  | [], results => results
  | pullRequest :: rest, results =>
    if keepCandidate state lookbackMs nowMs dateParse pullRequest then
      let results := results ++ [pullRequest]
      if limit ≤ results.length then results
      else collectFromPage state lookbackMs nowMs dateParse limit rest results
    else collectFromPage state lookbackMs nowMs dateParse limit rest results

/-- The page loop of `collectPullRequests` (`for page = 1..maxPages while results.length
< limit`), with the remaining page count as explicit fuel.  `pageData` models the
GitHub client's listing endpoint for the requested state, sorted by most recent update,
at page size 100; an empty page or a short page ends the loop. -/
def collectPagesAux (pageData : Nat → List GithubPullRequest) (state : String)
    (lookbackMs nowMs : Int) (dateParse : String → Option Int) (limit : Nat) :
    Nat → Nat → List GithubPullRequest → List GithubPullRequest
  | _, 0, results => results
  | page, fuel + 1, results =>
    if results.length < limit then
      let pullRequests := pageData page
      if pullRequests.length = 0 then results
      else
        let results := collectFromPage state lookbackMs nowMs dateParse limit pullRequests results
        if pullRequests.length < 100 then results
        else collectPagesAux pageData state lookbackMs nowMs dateParse limit (page + 1) fuel results
    else results

/-- Translation of `collectPullRequests` (src/core/github.ts).  The page size is 100 and
the page cap is `max(1, ceil(limit / 100) + 2)`; `nowMs` models `Date.now()`. -/
def collectPullRequests (pageData : Nat → List GithubPullRequest) (state : String)
    (limit : Nat) (mergedLookbackDays : Int) (dateParse : String → Option Int) (nowMs : Int) :
    List GithubPullRequest :=
  let maxPages := max 1 ((limit + 99) / 100 + 2)
  let lookbackMs := mergedLookbackDays * 24 * 60 * 60 * 1000
  collectPagesAux pageData state lookbackMs nowMs dateParse limit 1 maxPages []

/- ===== Duplicate detection orchestrator (src/duplicate-pr.ts) ===== -/

/-- The threshold snapshot embedded in a detection result. -/
structure DetectionThresholds where
  fileOverlap : ℚ
  structuralSimilarity : ℚ
  metadataSimilarity : ℚ
deriving DecidableEq

/-- One reported match entry of a detection run. -/
structure DuplicateMatch where
  number : Int
  htmlUrl : String
  state : String
  title : String
  mergedAt : Option String
  similarity : DuplicateSimilarity
deriving DecidableEq

/-- The result record of `detectDuplicatePullRequest`.  `thresholds` is an `Option`
because the early `disabled` result omits the key entirely. -/
structure DuplicateDetectionResult where
  checked : Bool
  skipReason : Option String
  flagged : Bool
  candidateCount : Nat
  comparedCount : Nat
  «matches» : List DuplicateMatch
  bestMatch : Option DuplicateMatch
  reverts : List DuplicateMatch
  thresholds : Option DetectionThresholds
deriving DecidableEq

/-- The external environment of one detection run: the GitHub client's two listing
endpoints by page, the per-candidate changed-file listing
(`listPullRequestFiles`/`github.paginate`), the runtime's `Date.parse`, and the run's
`Date.now()`. -/
structure DetectEnv where
  openPageData : Nat → List GithubPullRequest
  closedPageData : Nat → List GithubPullRequest
  filesOf : Int → List ChangedFile
  dateParse : String → Option Int
  nowMs : Int

/-- The candidate dedupe loop of `detectDuplicatePullRequest`: walk the concatenation of
the open and merged pools, skip the current pull request and candidates on a different
base branch, and keep the first record seen for each number (the `candidateByNumber`
map in insertion order). -/
def dedupeCandidates (currentNumber : Int) (baseRef : String)
    (candidates : List GithubPullRequest) : List GithubPullRequest :=
  candidates.foldl
    (fun acc candidate =>
      if candidate.number = currentNumber then acc
      else
        match candidate.base with
        | none => acc
        | some b =>
          if b.ref = some baseRef then
            if acc.any (fun c => c.number = candidate.number) then acc else acc ++ [candidate]
          else acc)
    []

/-- The sort rank of the candidate-pool comparator: 0 for open (no merged timestamp and
state exactly `open`), 1 otherwise, so that open pull requests come first. -/
def candidateOpenRank (pr : GithubPullRequest) : Int :=
  if !(truthyStr pr.merged_at) && (pr.state == some "open") then 0 else 1

/-- The recency key of the candidate-pool comparator:
`Date.parse(updated_at || created_at || 0)`.  The numeric fallback 0 is coerced by
`Date.parse` to the string "0"; an unparseable timestamp (NaN) is modeled as 0 (the
engine treats a NaN comparator result like 0). -/
def candidateTimestamp (dateParse : String → Option Int) (pr : GithubPullRequest) : Int :=
  let text :=
    if truthyStr pr.updated_at then jsOrEmpty pr.updated_at
    else if truthyStr pr.created_at then jsOrEmpty pr.created_at
    else "0"
  (dateParse text).getD 0

/-- The candidate-pool comparator as a total preorder for the stable sort: open before
closed, then most recent update first. -/
def candidatePoolLe (dateParse : String → Option Int) (left right : GithubPullRequest) : Bool :=
  if candidateOpenRank left = candidateOpenRank right then
    decide (candidateTimestamp dateParse right ≤ candidateTimestamp dateParse left)
  else decide (candidateOpenRank left ≤ candidateOpenRank right)

/-- The per-candidate worker body of `detectDuplicatePullRequest`'s `mapWithConcurrency`
call: early-skip on the reported file-count delta, look up or build-and-cache the
candidate representation, evaluate similarity, and drop candidates that fail the cheap
candidate filter.  The cache is threaded as state; §5 of the specification treats each
cache operation as one atomic scheduling step of the cooperative worker pool. -/
def evaluateOneCandidate (env : DetectEnv) (menv : MatcherEnv) (owner repo : String)
    (currentRepresentation : PullRequestRepresentation) (config : DuplicateConfig)
    (candidate : GithubPullRequest) (cache : RepresentationCache) :
    Option DuplicateMatch × RepresentationCache :=
  let earlySkip :=
    match candidate.changed_files with
    | some changedFiles =>
      decide (config.fileCountDeltaThreshold <
        ((changedFiles - currentRepresentation.fileCount).natAbs : Int))
    | none => false
  if earlySkip then (none, cache)
  else
    let candidateCacheKey := getRepresentationCacheKey owner repo candidate config
    let hit := getCachedRepresentation candidateCacheKey cache
    let built :=
      match hit.1 with
      | some representation => (representation, hit.2)
      | none =>
        let candidateFiles := env.filesOf candidate.number
        let representation := buildPullRequestRepresentation menv candidate candidateFiles config
        (representation, setCachedRepresentation candidateCacheKey representation hit.2)
    let similarity := evaluateCandidateSimilarity currentRepresentation built.1 config
    if !similarity.passesCandidateFilter then (none, built.2)
    else
      (some
        { number := candidate.number
          htmlUrl := jsOrEmpty candidate.html_url
          state :=
            if truthyStr candidate.merged_at then "merged"
            else (match candidate.state with | some s => if s = "" then "open" else s | none => "open")
          title := jsOrEmpty candidate.title
          mergedAt := jsOrNull candidate.merged_at
          similarity := similarity },
        built.2)

/-- The `mapWithConcurrency` evaluation of the candidate pool.  The worker pool of
src/core/utils.ts assigns indices in order and stores each result at its index, so the
result list is in pool order regardless of completion order; the cache state passes
through the per-candidate steps sequentially (each get/put is atomic, §5). -/
def evaluateCandidatePool (env : DetectEnv) (menv : MatcherEnv) (owner repo : String)
    (currentRepresentation : PullRequestRepresentation) (config : DuplicateConfig)
    (pool : List GithubPullRequest) (cache : RepresentationCache) :
    List (Option DuplicateMatch) × RepresentationCache :=
  pool.foldl
    (fun acc candidate =>
      let step :=
        evaluateOneCandidate env menv owner repo currentRepresentation config candidate acc.2
      (acc.1 ++ [step.1], step.2))
    ([], cache)

/-- The descending-confidence comparator of the final rankings. -/
def confidenceDescLe (left right : DuplicateMatch) : Bool :=
  decide (right.similarity.confidence ≤ left.similarity.confidence)

/-- Translation of `detectDuplicatePullRequest` (src/duplicate-pr.ts).  The GitHub
client, `Date.parse` and `Date.now` live in `env`; the module-level representation
cache is explicit state (returned alongside the result); the logger branch only emits
log lines and is omitted. -/
def detectDuplicatePullRequest (env : DetectEnv) (menv : MatcherEnv) (owner repo : String)
    (currentPullRequest : GithubPullRequest) (currentFiles : List ChangedFile)
    (config : DuplicateConfigInput) (cache : RepresentationCache) :
    DuplicateDetectionResult × RepresentationCache :=
  let effectiveConfig := normalizeDuplicateConfig config
  if !effectiveConfig.enabled then
    ({ checked := false
       skipReason := some "disabled"
       flagged := false
       candidateCount := 0
       comparedCount := 0
       «matches» := []
       bestMatch := none
       reverts := []
       thresholds := none }, cache)
  else
    let currentRepresentation :=
      buildPullRequestRepresentation menv currentPullRequest currentFiles effectiveConfig
    let openCandidates :=
      collectPullRequests env.openPageData "open" effectiveConfig.maxOpenCandidates.toNat
        effectiveConfig.mergedLookbackDays env.dateParse env.nowMs
    let mergedCandidates :=
      collectPullRequests env.closedPageData "closed" effectiveConfig.maxMergedCandidates.toNat
        effectiveConfig.mergedLookbackDays env.dateParse env.nowMs
    let deduped :=
      dedupeCandidates currentPullRequest.number currentRepresentation.baseRef
        (openCandidates ++ mergedCandidates)
    let candidatePool :=
      (deduped.mergeSort (candidatePoolLe env.dateParse)).take
        effectiveConfig.maxCandidateComparisons.toNat
    let evaluations :=
      evaluateCandidatePool env menv owner repo currentRepresentation effectiveConfig
        candidatePool cache
    let compared := evaluations.1.filterMap id
    let duplicateMatches :=
      (compared.filter (fun entry => entry.similarity.isDuplicate)).mergeSort confidenceDescLe
    let revertMatches :=
      (compared.filter (fun entry => entry.similarity.isRevert)).mergeSort confidenceDescLe
    let topMatches := duplicateMatches.take effectiveConfig.maxReportedMatches.toNat
    let bestMatch := topMatches.head?
    ({ checked := true
       skipReason := none
       flagged := decide (0 < topMatches.length)
       candidateCount := candidatePool.length
       comparedCount := compared.length
       «matches» := topMatches
       bestMatch := bestMatch
       reverts := revertMatches.take effectiveConfig.maxReportedMatches.toNat
       thresholds :=
         some
           { fileOverlap := effectiveConfig.fileOverlapThreshold
             structuralSimilarity := effectiveConfig.structuralSimilarityThreshold
             metadataSimilarity := effectiveConfig.metadataSimilarityThreshold } },
      evaluations.2)

/- ===== Helper lemmas ===== -/

/-- The modeled digest is never empty (the hex digest of SHA-256 is 64 characters). -/
lemma toSha256_length_pos (value : String) : 0 < (toSha256 value).length := by
  simp [toSha256, String.length_append]
  left
  decide

/-- A string of positive length is not the empty string. -/
lemma ne_empty_of_length_pos {s : String} (h : 0 < s.length) : s ≠ "" := by
  rintro rfl
  simp at h

/-- `clamp` lands in the interval whenever the interval is nonempty. -/
lemma clamp_mem {α : Type} [LinearOrder α] (value lo hi : α) (h : lo ≤ hi) :
    lo ≤ clamp value lo hi ∧ clamp value lo hi ≤ hi := by
  unfold clamp
  split
  · exact ⟨le_refl lo, h⟩
  · split
    · exact ⟨h, le_refl hi⟩
    · constructor
      · exact le_of_not_lt (by assumption)
      · exact le_of_not_lt (by assumption)

/-- C6: when both compared representations have empty file-path sets (respectively
empty top-level-directory sets), `fileOverlap` (respectively `topLevelDirOverlap`) is 1,
whereas when both have empty function, class, or added-import sets, `functionOverlap`,
`classOverlap` and `importOverlap` respectively are 0. -/
theorem jaccard_empty_conventions (a b : PullRequestRepresentation)
    (config : DuplicateConfig) :
    (a.fileSet = [] → b.fileSet = [] →
      (evaluateCandidateSimilarity a b config).metrics.fileOverlap = 1) ∧
    (a.topLevelDirectories = [] → b.topLevelDirectories = [] →
      (evaluateCandidateSimilarity a b config).metrics.topLevelDirOverlap = 1) ∧
    (a.changedFunctions = [] → b.changedFunctions = [] →
      (evaluateCandidateSimilarity a b config).metrics.functionOverlap = 0) ∧
    (a.changedClasses = [] → b.changedClasses = [] →
      (evaluateCandidateSimilarity a b config).metrics.classOverlap = 0) ∧
    (a.importsAdded = [] → b.importsAdded = [] →
      (evaluateCandidateSimilarity a b config).metrics.importOverlap = 0) := by
  refine ⟨fun h1 h2 => ?_, fun h1 h2 => ?_, fun h1 h2 => ?_, fun h1 h2 => ?_, fun h1 h2 => ?_⟩ <;>
    simp [evaluateCandidateSimilarity, fileOverlapOf, jaccardSimilarity, h1, h2]

/-- C6 witness: evaluated on a pair of representations with no files, directories,
functions, classes or added imports, all five empty-set conventions hold. -/
def emptyRepresentation : PullRequestRepresentation :=
  { prNumber := 0
    prId := 0
    title := ""
    body := ""
    htmlUrl := ""
    baseRef := ""
    state := "open"
    mergedAt := none
    fileSet := []
    topLevelDirectories := []
    fileCount := 0
    changedFunctions := []
    changedClasses := []
    importsAdded := []
    importsRemoved := []
    addedTokenFrequency := []
    removedTokenFrequency := []
    metadataTokenVector := []
    filePathHash := ""
    normalizedDiffHash := ""
    patchFingerprint := ""
    inversePatchFingerprint := "" }

theorem jaccard_empty_conventions_witness :
    (emptyRepresentation.fileSet = [] ∧ emptyRepresentation.topLevelDirectories = [] ∧
      emptyRepresentation.changedFunctions = [] ∧ emptyRepresentation.changedClasses = [] ∧
      emptyRepresentation.importsAdded = []) ∧
    (evaluateCandidateSimilarity emptyRepresentation emptyRepresentation
        DEFAULT_DUPLICATE_CONFIG).metrics.fileOverlap = 1 ∧
    (evaluateCandidateSimilarity emptyRepresentation emptyRepresentation
        DEFAULT_DUPLICATE_CONFIG).metrics.topLevelDirOverlap = 1 ∧
    (evaluateCandidateSimilarity emptyRepresentation emptyRepresentation
        DEFAULT_DUPLICATE_CONFIG).metrics.functionOverlap = 0 ∧
    (evaluateCandidateSimilarity emptyRepresentation emptyRepresentation
        DEFAULT_DUPLICATE_CONFIG).metrics.classOverlap = 0 ∧
    (evaluateCandidateSimilarity emptyRepresentation emptyRepresentation
        DEFAULT_DUPLICATE_CONFIG).metrics.importOverlap = 0 :=
  ⟨⟨rfl, rfl, rfl, rfl, rfl⟩,
    (jaccard_empty_conventions emptyRepresentation emptyRepresentation
      DEFAULT_DUPLICATE_CONFIG).1 rfl rfl,
    (jaccard_empty_conventions emptyRepresentation emptyRepresentation
      DEFAULT_DUPLICATE_CONFIG).2.1 rfl rfl,
    (jaccard_empty_conventions emptyRepresentation emptyRepresentation
      DEFAULT_DUPLICATE_CONFIG).2.2.1 rfl rfl,
    (jaccard_empty_conventions emptyRepresentation emptyRepresentation
      DEFAULT_DUPLICATE_CONFIG).2.2.2.1 rfl rfl,
    (jaccard_empty_conventions emptyRepresentation emptyRepresentation
      DEFAULT_DUPLICATE_CONFIG).2.2.2.2 rfl rfl⟩

/-- C4: whenever a comparison is neither an exact duplicate nor an inverse-patch
(revert) match, the confidence is the clamped weighted blend, hence at least 0, at most
0.999, and strictly below 1. -/
theorem heuristic_confidence_lt_one (cur cand : PullRequestRepresentation)
    (config : DuplicateConfig)
    (hExact : exactDuplicateB cur cand config = false)
    (hInverse : inversePatchMatchB cur cand = false) :
    0 ≤ (evaluateCandidateSimilarity cur cand config).confidence ∧
    (evaluateCandidateSimilarity cur cand config).confidence ≤ 0.999 ∧
    (evaluateCandidateSimilarity cur cand config).confidence < 1 := by
  have hc : (evaluateCandidateSimilarity cur cand config).confidence =
      clamp
        (fileOverlapOf cur cand * 0.34 +
          cosineSimilarityFromMaps cur.addedTokenFrequency cand.addedTokenFrequency * 0.32 +
          cosineSimilarityFromVectors cur.metadataTokenVector cand.metadataTokenVector * 0.22 +
          max (jaccardSimilarity cur.changedFunctions cand.changedFunctions 0)
            (max (jaccardSimilarity cur.changedClasses cand.changedClasses 0)
              (jaccardSimilarity cur.importsAdded cand.importsAdded 0)) * 0.12)
        0 0.999 := by
    simp [evaluateCandidateSimilarity, hExact, hInverse]
  rw [hc]
  have hm := clamp_mem
    (fileOverlapOf cur cand * 0.34 +
      cosineSimilarityFromMaps cur.addedTokenFrequency cand.addedTokenFrequency * 0.32 +
      cosineSimilarityFromVectors cur.metadataTokenVector cand.metadataTokenVector * 0.22 +
      max (jaccardSimilarity cur.changedFunctions cand.changedFunctions 0)
        (max (jaccardSimilarity cur.changedClasses cand.changedClasses 0)
          (jaccardSimilarity cur.importsAdded cand.importsAdded 0)) * 0.12)
    (0 : ℚ) 0.999 (by norm_num)
  refine ⟨hm.1, hm.2, lt_of_le_of_lt hm.2 (by norm_num)⟩

/-- C4 witness: two representations with distinct fingerprints and hashes are neither an
exact duplicate nor a revert, and their confidence lies in [0, 0.999], strictly below
1. -/
def plainRepresentationA : PullRequestRepresentation :=
  { emptyRepresentation with
    filePathHash := "hashA", normalizedDiffHash := "diffA",
    patchFingerprint := "fingerA", inversePatchFingerprint := "invA" }

def plainRepresentationB : PullRequestRepresentation :=
  { emptyRepresentation with
    filePathHash := "hashB", normalizedDiffHash := "diffB",
    patchFingerprint := "fingerB", inversePatchFingerprint := "invB" }

theorem heuristic_confidence_lt_one_witness :
    exactDuplicateB plainRepresentationA plainRepresentationB DEFAULT_DUPLICATE_CONFIG = false ∧
    inversePatchMatchB plainRepresentationA plainRepresentationB = false ∧
    (0 ≤ (evaluateCandidateSimilarity plainRepresentationA plainRepresentationB
        DEFAULT_DUPLICATE_CONFIG).confidence ∧
      (evaluateCandidateSimilarity plainRepresentationA plainRepresentationB
        DEFAULT_DUPLICATE_CONFIG).confidence ≤ 0.999 ∧
      (evaluateCandidateSimilarity plainRepresentationA plainRepresentationB
        DEFAULT_DUPLICATE_CONFIG).confidence < 1) :=
  ⟨by decide, by decide,
    heuristic_confidence_lt_one plainRepresentationA plainRepresentationB
      DEFAULT_DUPLICATE_CONFIG (by decide) (by decide)⟩

/-- C1: two representations built under the same configuration from identical file sets
and identical patch text (the same changed-file list) evaluate to an exact duplicate
with reason `patch-id-match` and confidence 1. -/
theorem identical_files_patch_id_match (menv : MatcherEnv) (prA prB : GithubPullRequest)
    (files : List ChangedFile) (config : DuplicateConfig) :
    (evaluateCandidateSimilarity (buildPullRequestRepresentation menv prA files config)
        (buildPullRequestRepresentation menv prB files config) config).isDuplicate = true ∧
    (evaluateCandidateSimilarity (buildPullRequestRepresentation menv prA files config)
        (buildPullRequestRepresentation menv prB files config) config).reason =
      "patch-id-match" ∧
    (evaluateCandidateSimilarity (buildPullRequestRepresentation menv prA files config)
        (buildPullRequestRepresentation menv prB files config) config).confidence = 1 := by
  have hpid : patchIdMatchB (buildPullRequestRepresentation menv prA files config)
      (buildPullRequestRepresentation menv prB files config) = true := by
    simp [patchIdMatchB, buildPullRequestRepresentation]
    exact toSha256_length_pos _
  have hexact : exactDuplicateB (buildPullRequestRepresentation menv prA files config)
      (buildPullRequestRepresentation menv prB files config) config = true := by
    simp [exactDuplicateB, hpid]
  refine ⟨?_, ?_, ?_⟩ <;> simp [evaluateCandidateSimilarity, hexact, hpid]

/-- Characters with equal codes are equal. -/
lemma char_eq_of_toNat_eq {a b : Char} (h : a.toNat = b.toNat) : a = b :=
  Char.ext (UInt32.ext h)

/-- The JS string order is total. -/
lemma charListLe_total (as bs : List Char) :
    charListLe as bs = true ∨ charListLe bs as = true := by
  induction as generalizing bs with
  | nil => left; simp [charListLe]
  | cons a as ih =>
    cases bs with
    | nil => right; simp [charListLe]
    | cons b bs =>
      by_cases hab : a.toNat < b.toNat
      · left; simp [charListLe, hab]
      · by_cases hba : b.toNat < a.toNat
        · right; simp [charListLe, hba]
        · rcases ih bs with h | h
          · left; simp [charListLe, hab, hba, h]
          · right; simp [charListLe, hab, hba, h]

/-- The JS string order is transitive. -/
lemma charListLe_trans {as bs cs : List Char} (h1 : charListLe as bs = true)
    (h2 : charListLe bs cs = true) : charListLe as cs = true := by
  induction as generalizing bs cs with
  | nil => simp [charListLe]
  | cons a as ih =>
    cases bs with
    | nil => simp [charListLe] at h1
    | cons b bs =>
      cases cs with
      | nil => simp [charListLe] at h2
      | cons c cs =>
        rw [charListLe] at h1 h2 ⊢
        by_cases hab : a.toNat < b.toNat
        · rw [if_pos hab] at h1
          by_cases hbc : b.toNat < c.toNat
          · rw [if_pos (by omega : a.toNat < c.toNat)]
          · rw [if_neg hbc] at h2
            by_cases hcb : c.toNat < b.toNat
            · rw [if_pos hcb] at h2
              exact absurd h2 (by simp)
            · rw [if_pos (by omega : a.toNat < c.toNat)]
        · rw [if_neg hab] at h1
          by_cases hba : b.toNat < a.toNat
          · rw [if_pos hba] at h1
            exact absurd h1 (by simp)
          · rw [if_neg hba] at h1
            by_cases hbc : b.toNat < c.toNat
            · rw [if_pos (by omega : a.toNat < c.toNat)]
            · rw [if_neg hbc] at h2
              by_cases hcb : c.toNat < b.toNat
              · rw [if_pos hcb] at h2
                exact absurd h2 (by simp)
              · rw [if_neg hcb] at h2
                rw [if_neg (by omega : ¬ a.toNat < c.toNat),
                  if_neg (by omega : ¬ c.toNat < a.toNat)]
                exact ih h1 h2

/-- The JS string order is antisymmetric. -/
lemma charListLe_antisymm {as bs : List Char} (h1 : charListLe as bs = true)
    (h2 : charListLe bs as = true) : as = bs := by
  induction as generalizing bs with
  | nil =>
    cases bs with
    | nil => rfl
    | cons b bs => simp [charListLe] at h2
  | cons a as ih =>
    cases bs with
    | nil => simp [charListLe] at h1
    | cons b bs =>
      rw [charListLe] at h1 h2
      by_cases hab : a.toNat < b.toNat
      · rw [if_neg (by omega : ¬ b.toNat < a.toNat), if_pos hab] at h2
        exact absurd h2 (by simp)
      · by_cases hba : b.toNat < a.toNat
        · rw [if_neg hab, if_pos hba] at h1
          exact absurd h1 (by simp)
        · rw [if_neg hab, if_neg hba] at h1
          rw [if_neg hba, if_neg hab] at h2
          have hchar : a = b := char_eq_of_toNat_eq (by omega)
          rw [hchar, ih h1 h2]

instance : IsAntisymm String (fun a b => strLeB a b = true) :=
  ⟨fun _ _ h1 h2 => String.ext (charListLe_antisymm h1 h2)⟩

/-- `sortStrings` produces a list sorted in the JS string order. -/
lemma sortStrings_sorted (l : List String) :
    List.Sorted (fun a b => strLeB a b = true) (sortStrings l) :=
  @List.sorted_mergeSort String strLeB
    (fun _ _ _ hab hbc => charListLe_trans hab hbc)
    (fun a b => by
      simp only [strLeB, Bool.or_eq_true]
      exact charListLe_total a.toList b.toList)
    l

/-- Sorting is invariant under permutation of the input: the sorted list of a multiset
is unique because the JS string order is total and antisymmetric. -/
lemma sortStrings_congr {l l' : List String} (h : l.Perm l') :
    sortStrings l = sortStrings l' :=
  List.eq_of_perm_of_sorted
    ((List.mergeSort_perm l _).trans (h.trans (List.mergeSort_perm l' _).symm))
    (sortStrings_sorted l) (sortStrings_sorted l')

/-- C2: if B's multiset of normalized added lines equals A's normalized removed lines
and B's removed lines equal A's added lines (stated as permutations of the accumulated
line lists), then A's `patchFingerprint` equals B's `inversePatchFingerprint` and the
evaluation of the pair reports `isRevert = true`. -/
theorem revert_fingerprint_swap (menv : MatcherEnv) (prA prB : GithubPullRequest)
    (filesA filesB : List ChangedFile) (config : DuplicateConfig)
    (hAdded : (allAddedLinesOf menv filesB config).Perm (allRemovedLinesOf menv filesA config))
    (hRemoved :
      (allRemovedLinesOf menv filesB config).Perm (allAddedLinesOf menv filesA config)) :
    (buildPullRequestRepresentation menv prA filesA config).patchFingerprint =
      (buildPullRequestRepresentation menv prB filesB config).inversePatchFingerprint ∧
    (evaluateCandidateSimilarity (buildPullRequestRepresentation menv prA filesA config)
        (buildPullRequestRepresentation menv prB filesB config) config).isRevert = true := by
  have hSortAdded : sortedAddedLinesOf menv filesB config = sortedRemovedLinesOf menv filesA config := by
    simpa [sortedAddedLinesOf, sortedRemovedLinesOf] using sortStrings_congr hAdded
  have hSortRemoved :
      sortedRemovedLinesOf menv filesB config = sortedAddedLinesOf menv filesA config := by
    simpa [sortedAddedLinesOf, sortedRemovedLinesOf] using sortStrings_congr hRemoved
  have hfp : patchFingerprintOf menv filesA config = inversePatchFingerprintOf menv filesB config := by
    simp [patchFingerprintOf, inversePatchFingerprintOf, hSortAdded, hSortRemoved]
  have hmatch : inversePatchMatchB (buildPullRequestRepresentation menv prA filesA config)
      (buildPullRequestRepresentation menv prB filesB config) = true := by
    simp [inversePatchMatchB, buildPullRequestRepresentation, hfp]
    exact toSha256_length_pos _
  exact ⟨hfp, by simp [evaluateCandidateSimilarity, hmatch]⟩

/-- C2 witness: a one-file submission adding `foo` and removing `bar`, against a one-file
submission adding `bar` and removing `foo`. -/
def noMatcherEnv : MatcherEnv :=
  { importMatch := fun _ => none
    functionMatch := fun _ => none
    classMatch := fun _ => none }

def emptyGithubPullRequest : GithubPullRequest :=
  { id := 0
    number := 0
    title := none
    body := none
    html_url := none
    base := none
    head := none
    state := none
    merged_at := none
    updated_at := none
    created_at := none
    changed_files := none }

def revertFilesA : List ChangedFile := [{ filename := some "a.ts", patch := some "+foo\n-bar" }]

def revertFilesB : List ChangedFile := [{ filename := some "b.ts", patch := some "+bar\n-foo" }]

theorem revert_fingerprint_swap_witness :
    ((allAddedLinesOf noMatcherEnv revertFilesB DEFAULT_DUPLICATE_CONFIG).Perm
        (allRemovedLinesOf noMatcherEnv revertFilesA DEFAULT_DUPLICATE_CONFIG) ∧
      (allRemovedLinesOf noMatcherEnv revertFilesB DEFAULT_DUPLICATE_CONFIG).Perm
        (allAddedLinesOf noMatcherEnv revertFilesA DEFAULT_DUPLICATE_CONFIG)) ∧
    (buildPullRequestRepresentation noMatcherEnv
          { emptyGithubPullRequest with number := 1 } revertFilesA
          DEFAULT_DUPLICATE_CONFIG).patchFingerprint =
      (buildPullRequestRepresentation noMatcherEnv
          { emptyGithubPullRequest with number := 2 } revertFilesB
          DEFAULT_DUPLICATE_CONFIG).inversePatchFingerprint ∧
    (evaluateCandidateSimilarity
        (buildPullRequestRepresentation noMatcherEnv
          { emptyGithubPullRequest with number := 1 } revertFilesA DEFAULT_DUPLICATE_CONFIG)
        (buildPullRequestRepresentation noMatcherEnv
          { emptyGithubPullRequest with number := 2 } revertFilesB DEFAULT_DUPLICATE_CONFIG)
        DEFAULT_DUPLICATE_CONFIG).isRevert = true :=
  ⟨⟨by decide, by decide⟩,
    (revert_fingerprint_swap noMatcherEnv { emptyGithubPullRequest with number := 1 }
      { emptyGithubPullRequest with number := 2 } revertFilesA revertFilesB
      DEFAULT_DUPLICATE_CONFIG (by decide) (by decide)).1,
    (revert_fingerprint_swap noMatcherEnv { emptyGithubPullRequest with number := 1 }
      { emptyGithubPullRequest with number := 2 } revertFilesA revertFilesB
      DEFAULT_DUPLICATE_CONFIG (by decide) (by decide)).2⟩

/-- C8: when two pull requests' changed-file lists yield no normalized added or removed
lines (for example, every patch text is absent, as with binary-only changes), the built
representations have equal non-empty patch fingerprints, so the evaluation reports
`patchIdMatch = true`, `isDuplicate = true` and confidence 1 — even when the two file
sets are disjoint (the file sets are unconstrained here). -/
theorem patchless_files_exact_match (menv : MatcherEnv) (prA prB : GithubPullRequest)
    (filesA filesB : List ChangedFile) (config : DuplicateConfig)
    (hAddedA : allAddedLinesOf menv filesA config = [])
    (hRemovedA : allRemovedLinesOf menv filesA config = [])
    (hAddedB : allAddedLinesOf menv filesB config = [])
    (hRemovedB : allRemovedLinesOf menv filesB config = []) :
    (buildPullRequestRepresentation menv prA filesA config).patchFingerprint =
      (buildPullRequestRepresentation menv prB filesB config).patchFingerprint ∧
    (buildPullRequestRepresentation menv prA filesA config).patchFingerprint ≠ "" ∧
    (evaluateCandidateSimilarity (buildPullRequestRepresentation menv prA filesA config)
        (buildPullRequestRepresentation menv prB filesB config)
        config).metrics.patchIdMatch = true ∧
    (evaluateCandidateSimilarity (buildPullRequestRepresentation menv prA filesA config)
        (buildPullRequestRepresentation menv prB filesB config) config).isDuplicate = true ∧
    (evaluateCandidateSimilarity (buildPullRequestRepresentation menv prA filesA config)
        (buildPullRequestRepresentation menv prB filesB config) config).confidence = 1 := by
  have hfp : patchFingerprintOf menv filesA config = patchFingerprintOf menv filesB config := by
    simp [patchFingerprintOf, sortedAddedLinesOf, sortedRemovedLinesOf, hAddedA, hRemovedA,
      hAddedB, hRemovedB, sortStrings]
  have hpid : patchIdMatchB (buildPullRequestRepresentation menv prA filesA config)
      (buildPullRequestRepresentation menv prB filesB config) = true := by
    simp [patchIdMatchB, buildPullRequestRepresentation, hfp]
    exact toSha256_length_pos _
  have hexact : exactDuplicateB (buildPullRequestRepresentation menv prA filesA config)
      (buildPullRequestRepresentation menv prB filesB config) config = true := by
    simp [exactDuplicateB, hpid]
  refine ⟨hfp, ne_empty_of_length_pos (toSha256_length_pos _), ?_, ?_, ?_⟩ <;>
    simp [evaluateCandidateSimilarity, hexact, hpid]

/-- C8 witness: two single-file pull requests with disjoint file sets and absent patch
text. -/
def patchlessFilesA : List ChangedFile := [{ filename := some "a.ts", patch := none }]

def patchlessFilesB : List ChangedFile := [{ filename := some "b.md", patch := none }]

theorem patchless_files_exact_match_witness :
    (allAddedLinesOf noMatcherEnv patchlessFilesA DEFAULT_DUPLICATE_CONFIG = [] ∧
      allRemovedLinesOf noMatcherEnv patchlessFilesA DEFAULT_DUPLICATE_CONFIG = [] ∧
      allAddedLinesOf noMatcherEnv patchlessFilesB DEFAULT_DUPLICATE_CONFIG = [] ∧
      allRemovedLinesOf noMatcherEnv patchlessFilesB DEFAULT_DUPLICATE_CONFIG = []) ∧
    (evaluateCandidateSimilarity
        (buildPullRequestRepresentation noMatcherEnv emptyGithubPullRequest patchlessFilesA
          DEFAULT_DUPLICATE_CONFIG)
        (buildPullRequestRepresentation noMatcherEnv emptyGithubPullRequest patchlessFilesB
          DEFAULT_DUPLICATE_CONFIG) DEFAULT_DUPLICATE_CONFIG).metrics.patchIdMatch = true ∧
    (evaluateCandidateSimilarity
        (buildPullRequestRepresentation noMatcherEnv emptyGithubPullRequest patchlessFilesA
          DEFAULT_DUPLICATE_CONFIG)
        (buildPullRequestRepresentation noMatcherEnv emptyGithubPullRequest patchlessFilesB
          DEFAULT_DUPLICATE_CONFIG) DEFAULT_DUPLICATE_CONFIG).isDuplicate = true ∧
    (evaluateCandidateSimilarity
        (buildPullRequestRepresentation noMatcherEnv emptyGithubPullRequest patchlessFilesA
          DEFAULT_DUPLICATE_CONFIG)
        (buildPullRequestRepresentation noMatcherEnv emptyGithubPullRequest patchlessFilesB
          DEFAULT_DUPLICATE_CONFIG) DEFAULT_DUPLICATE_CONFIG).confidence = 1 :=
  ⟨⟨by decide, by decide, by decide, by decide⟩,
    (patchless_files_exact_match noMatcherEnv emptyGithubPullRequest emptyGithubPullRequest
      patchlessFilesA patchlessFilesB DEFAULT_DUPLICATE_CONFIG (by decide) (by decide)
      (by decide) (by decide)).2.2.1,
    (patchless_files_exact_match noMatcherEnv emptyGithubPullRequest emptyGithubPullRequest
      patchlessFilesA patchlessFilesB DEFAULT_DUPLICATE_CONFIG (by decide) (by decide)
      (by decide) (by decide)).2.2.2.1,
    (patchless_files_exact_match noMatcherEnv emptyGithubPullRequest emptyGithubPullRequest
      patchlessFilesA patchlessFilesB DEFAULT_DUPLICATE_CONFIG (by decide) (by decide)
      (by decide) (by decide)).2.2.2.2⟩

/-- Membership in an `addUnique` fold: an element is in the result iff it is in the
accumulator or in the remaining input. -/
lemma mem_foldl_addUnique (l : List String) (acc : List String) (x : String) :
    x ∈ l.foldl addUnique acc ↔ x ∈ acc ∨ x ∈ l := by
  induction l generalizing acc with
  | nil => simp
  | cons a l ih =>
    simp only [List.foldl_cons, ih, addUnique, List.mem_cons]
    by_cases hmem : a ∈ acc
    · simp only [if_pos hmem]
      constructor
      · rintro (h | h)
        · exact Or.inl h
        · exact Or.inr (Or.inr h)
      · rintro (h | rfl | h)
        · exact Or.inl h
        · exact Or.inl hmem
        · exact Or.inr h
    · simp only [if_neg hmem, List.mem_append, List.mem_singleton]
      tauto

/-- An `addUnique` fold preserves duplicate-freedom of the accumulator. -/
lemma nodup_foldl_addUnique (l : List String) (acc : List String) (h : acc.Nodup) :
    (l.foldl addUnique acc).Nodup := by
  induction l generalizing acc with
  | nil => exact h
  | cons a l ih =>
    simp only [List.foldl_cons]
    apply ih
    unfold addUnique
    by_cases hmem : a ∈ acc
    · simp [hmem, h]
    · simp [hmem, List.nodup_append, h]

/-- `setFromList` has the same members as its input. -/
lemma mem_setFromList (l : List String) (x : String) : x ∈ setFromList l ↔ x ∈ l := by
  simp [setFromList, mem_foldl_addUnique]

/-- `setFromList` is duplicate-free. -/
lemma nodup_setFromList (l : List String) : (setFromList l).Nodup :=
  nodup_foldl_addUnique l [] List.nodup_nil

/-- JS `Set` formation is invariant (up to permutation) under permutation of the
insertion order. -/
lemma setFromList_perm {l l' : List String} (h : l.Perm l') :
    (setFromList l).Perm (setFromList l') :=
  (List.perm_ext_iff_of_nodup (nodup_setFromList l) (nodup_setFromList l')).2
    (fun a => by simp [mem_setFromList, h.mem_iff])

/-- C10: `buildPullRequestRepresentation` is deterministic, and through the sorting
before hashing even independent of the order of the changed-file list: building from a
permutation of the same file list under the same configuration yields identical values
for all four content hashes and an identical metadata embedding vector (building twice
from the very same list is the reflexive instance). -/
theorem representation_build_deterministic (menv : MatcherEnv) (pr : GithubPullRequest)
    (files files' : List ChangedFile) (config : DuplicateConfig)
    (hperm : files.Perm files') :
    (buildPullRequestRepresentation menv pr files config).filePathHash =
      (buildPullRequestRepresentation menv pr files' config).filePathHash ∧
    (buildPullRequestRepresentation menv pr files config).normalizedDiffHash =
      (buildPullRequestRepresentation menv pr files' config).normalizedDiffHash ∧
    (buildPullRequestRepresentation menv pr files config).patchFingerprint =
      (buildPullRequestRepresentation menv pr files' config).patchFingerprint ∧
    (buildPullRequestRepresentation menv pr files config).inversePatchFingerprint =
      (buildPullRequestRepresentation menv pr files' config).inversePatchFingerprint ∧
    (buildPullRequestRepresentation menv pr files config).metadataTokenVector =
      (buildPullRequestRepresentation menv pr files' config).metadataTokenVector := by
  have hf : (fileFeaturesOf menv files config).Perm (fileFeaturesOf menv files' config) :=
    hperm.map _
  have hfiles : sortedFilesOf menv files config = sortedFilesOf menv files' config := by
    unfold sortedFilesOf fileSetOf
    exact sortStrings_congr (setFromList_perm (hf.map _))
  have hadded : sortedAddedLinesOf menv files config = sortedAddedLinesOf menv files' config := by
    unfold sortedAddedLinesOf allAddedLinesOf
    exact sortStrings_congr (List.Perm.flatMap_right _ hf)
  have hremoved :
      sortedRemovedLinesOf menv files config = sortedRemovedLinesOf menv files' config := by
    unfold sortedRemovedLinesOf allRemovedLinesOf
    exact sortStrings_congr (List.Perm.flatMap_right _ hf)
  have hfuncs : sortStrings (changedFunctionsOf menv files config) =
      sortStrings (changedFunctionsOf menv files' config) := by
    unfold changedFunctionsOf
    exact sortStrings_congr (setFromList_perm (List.Perm.flatMap_right _ hf))
  have hclasses : sortStrings (changedClassesOf menv files config) =
      sortStrings (changedClassesOf menv files' config) := by
    unfold changedClassesOf
    exact sortStrings_congr (setFromList_perm (List.Perm.flatMap_right _ hf))
  have himpa : sortStrings (importsAddedOf menv files config) =
      sortStrings (importsAddedOf menv files' config) := by
    unfold importsAddedOf
    exact sortStrings_congr (setFromList_perm (List.Perm.flatMap_right _ hf))
  have himpr : sortStrings (importsRemovedOf menv files config) =
      sortStrings (importsRemovedOf menv files' config) := by
    unfold importsRemovedOf
    exact sortStrings_congr (setFromList_perm (List.Perm.flatMap_right _ hf))
  have htext : metadataTextOf menv pr files config = metadataTextOf menv pr files' config := by
    unfold metadataTextOf
    rw [hfiles, hfuncs, hclasses, himpa, himpr]
  refine ⟨?_, ?_, ?_, ?_, ?_⟩ <;>
    simp [buildPullRequestRepresentation, filePathHashOf, normalizedDiffHashOf,
      patchFingerprintOf, inversePatchFingerprintOf, hfiles, hadded, hremoved, htext]

/-- C10 witness: the same two files in the two possible orders. -/
def orderFilesOne : List ChangedFile :=
  [{ filename := some "a.ts", patch := some "+foo" },
   { filename := some "b.ts", patch := some "-bar" }]

def orderFilesTwo : List ChangedFile :=
  [{ filename := some "b.ts", patch := some "-bar" },
   { filename := some "a.ts", patch := some "+foo" }]

theorem representation_build_deterministic_witness :
    orderFilesOne.Perm orderFilesTwo ∧
    (buildPullRequestRepresentation noMatcherEnv emptyGithubPullRequest orderFilesOne
        DEFAULT_DUPLICATE_CONFIG).filePathHash =
      (buildPullRequestRepresentation noMatcherEnv emptyGithubPullRequest orderFilesTwo
        DEFAULT_DUPLICATE_CONFIG).filePathHash ∧
    (buildPullRequestRepresentation noMatcherEnv emptyGithubPullRequest orderFilesOne
        DEFAULT_DUPLICATE_CONFIG).normalizedDiffHash =
      (buildPullRequestRepresentation noMatcherEnv emptyGithubPullRequest orderFilesTwo
        DEFAULT_DUPLICATE_CONFIG).normalizedDiffHash ∧
    (buildPullRequestRepresentation noMatcherEnv emptyGithubPullRequest orderFilesOne
        DEFAULT_DUPLICATE_CONFIG).patchFingerprint =
      (buildPullRequestRepresentation noMatcherEnv emptyGithubPullRequest orderFilesTwo
        DEFAULT_DUPLICATE_CONFIG).patchFingerprint ∧
    (buildPullRequestRepresentation noMatcherEnv emptyGithubPullRequest orderFilesOne
        DEFAULT_DUPLICATE_CONFIG).inversePatchFingerprint =
      (buildPullRequestRepresentation noMatcherEnv emptyGithubPullRequest orderFilesTwo
        DEFAULT_DUPLICATE_CONFIG).inversePatchFingerprint ∧
    (buildPullRequestRepresentation noMatcherEnv emptyGithubPullRequest orderFilesOne
        DEFAULT_DUPLICATE_CONFIG).metadataTokenVector =
      (buildPullRequestRepresentation noMatcherEnv emptyGithubPullRequest orderFilesTwo
        DEFAULT_DUPLICATE_CONFIG).metadataTokenVector :=
  ⟨by decide,
    representation_build_deterministic noMatcherEnv emptyGithubPullRequest orderFilesOne
      orderFilesTwo DEFAULT_DUPLICATE_CONFIG (by decide)⟩

/-- The eviction loop never leaves the cache above the bound once the fuel covers the
excess. -/
lemma evictOldestAux_le (fuel : Nat) (cache : RepresentationCache)
    (h : cache.length ≤ REPRESENTATION_CACHE_MAX_ENTRIES + fuel) :
    (evictOldestAux fuel cache).length ≤ REPRESENTATION_CACHE_MAX_ENTRIES := by
  induction fuel generalizing cache with
  | zero => simpa [evictOldestAux] using h
  | succ fuel ih =>
    rw [evictOldestAux]
    split
    · exact ih cache.tail (by simp [List.length_tail]; omega)
    · omega

/-- The eviction loop leaves a cache within the bound untouched. -/
lemma evictOldestAux_of_le (fuel : Nat) (cache : RepresentationCache)
    (h : cache.length ≤ REPRESENTATION_CACHE_MAX_ENTRIES) :
    evictOldestAux fuel cache = cache := by
  cases fuel with
  | zero => rfl
  | succ fuel => rw [evictOldestAux, if_neg (by omega)]

/-- The eviction loop always returns to the bound. -/
lemma evictOldest_le (cache : RepresentationCache) :
    (evictOldest cache).length ≤ REPRESENTATION_CACHE_MAX_ENTRIES :=
  evictOldestAux_le cache.length cache (by omega)

/-- Evicting from a cache exactly one over the bound removes exactly the oldest entry. -/
lemma evictOldest_succ (cache : RepresentationCache)
    (h : cache.length = REPRESENTATION_CACHE_MAX_ENTRIES + 1) :
    evictOldest cache = cache.tail := by
  rw [evictOldest, h, evictOldestAux, if_pos (by omega)]
  exact evictOldestAux_of_le _ _ (by simp [List.length_tail]; omega)

/-- A key of the association-list cache is found as the key of its own entry. -/
lemma find_key_of_mem {k : String} {c : RepresentationCache}
    (h : k ∈ c.map Prod.fst) :
    ∃ v, c.find? (fun p => p.1 == k) = some (k, v) := by
  induction c with
  | nil => simp at h
  | cons p rest ih =>
    by_cases hp : p.1 = k
    · refine ⟨p.2, ?_⟩
      rw [List.find?_cons_of_pos _ (by simp [hp])]
      rw [show p = (k, p.2) from by rw [← hp]]
    · have hmem : k ∈ rest.map Prod.fst := by
        rcases List.mem_map.1 h with ⟨q, hq, rfl⟩
        rcases List.mem_cons.1 hq with rfl | hq'
        · exact absurd rfl hp
        · exact List.mem_map_of_mem _ hq'
      rcases ih hmem with ⟨v, hv⟩
      exact ⟨v, by rw [List.find?_cons_of_neg _ (by simp [hp]), hv]⟩

/-- Filtering away an absent key changes nothing. -/
lemma filter_key_eq_self {k : String} {c : RepresentationCache}
    (h : k ∉ c.map Prod.fst) :
    c.filter (fun p => !(p.1 == k)) = c := by
  induction c with
  | nil => rfl
  | cons p rest ih =>
    have hp : ¬ p.1 = k := fun he => h (by simp [← he])
    have hrest : k ∉ rest.map Prod.fst := fun hm => h (by simp [hm])
    simp [List.filter_cons, hp, ih hrest]

/-- Filtering away a present key of a duplicate-free cache removes exactly one entry. -/
lemma filter_key_length {k : String} {c : RepresentationCache}
    (hnodup : (c.map Prod.fst).Nodup) (h : k ∈ c.map Prod.fst) :
    (c.filter (fun p => !(p.1 == k))).length + 1 = c.length := by
  induction c with
  | nil => simp at h
  | cons p rest ih =>
    have hn : p.1 ∉ rest.map Prod.fst ∧ (rest.map Prod.fst).Nodup := by
      rw [List.map_cons, List.nodup_cons] at hnodup
      exact hnodup
    by_cases hp : p.1 = k
    · have hrest : k ∉ rest.map Prod.fst := by rw [← hp]; exact hn.1
      simp [List.filter_cons, hp, filter_key_eq_self hrest]
    · have hmem : k ∈ rest.map Prod.fst := by
        rcases List.mem_map.1 h with ⟨q, hq, rfl⟩
        rcases List.mem_cons.1 hq with rfl | hq'
        · exact absurd rfl hp
        · exact List.mem_map_of_mem _ hq'
      have := ih hn.2 hmem
      simp [List.filter_cons, hp]
      omega

/-- Keys of a filtered cache are keys of the cache. -/
lemma mem_keys_of_mem_filter {k : String} {c : RepresentationCache}
    {pred : String × PullRequestRepresentation → Bool}
    (h : k ∈ (c.filter pred).map Prod.fst) : k ∈ c.map Prod.fst := by
  rcases List.mem_map.1 h with ⟨p, hp, rfl⟩
  exact List.mem_map_of_mem _ (List.mem_of_mem_filter hp)

/-- The `has` check of the cache is equivalent to key membership. -/
lemma any_key_eq_false {k : String} {c : RepresentationCache}
    (h : k ∉ c.map Prod.fst) : c.any (fun p => p.1 == k) = false := by
  rw [List.any_eq_false]
  intro p hp
  simp only [beq_iff_eq]
  exact fun he => h (by rw [← he]; exact List.mem_map_of_mem _ hp)

/-- Appending past a nonempty list commutes with `tail`. -/
lemma tail_append_of_ne_nil {α : Type} {l l₂ : List α} (h : l ≠ []) :
    (l ++ l₂).tail = l.tail ++ l₂ := by
  cases l with
  | nil => exact absurd rfl h
  | cons a rest => simp

/-- C3: the representation cache never exceeds its fixed bound of 2000 entries after any
`setCachedRepresentation` call, and on a full cache of distinct keys the eviction victim
of an insert with a fresh key is exactly the least-recently-used (oldest-position)
entry; in particular a `getCachedRepresentation` hit on a key just before the insert has
promoted that key away from the victim position, so the key survives the insert. -/
theorem representation_cache_bound_and_lru (c : RepresentationCache) (k knew : String)
    (v : PullRequestRepresentation)
    (hlen : c.length = REPRESENTATION_CACHE_MAX_ENTRIES)
    (hnodup : (c.map Prod.fst).Nodup)
    (hk : k ∈ c.map Prod.fst)
    (hknew : knew ∉ c.map Prod.fst) :
    (∀ (key : String) (rep : PullRequestRepresentation) (cache : RepresentationCache),
      (setCachedRepresentation key rep cache).length ≤ REPRESENTATION_CACHE_MAX_ENTRIES) ∧
    setCachedRepresentation knew v (getCachedRepresentation k c).2 =
      ((getCachedRepresentation k c).2).tail ++ [(knew, v)] ∧
    k ∈ (setCachedRepresentation knew v (getCachedRepresentation k c).2).map Prod.fst := by
  have hbound : ∀ (key : String) (rep : PullRequestRepresentation)
      (cache : RepresentationCache),
      (setCachedRepresentation key rep cache).length ≤ REPRESENTATION_CACHE_MAX_ENTRIES := by
    intro key rep cache
    unfold setCachedRepresentation
    exact evictOldest_le _
  obtain ⟨vk, hfind⟩ := find_key_of_mem hk
  have hget : (getCachedRepresentation k c).2 =
      c.filter (fun p => !(p.1 == k)) ++ [(k, vk)] := by
    simp [getCachedRepresentation, hfind]
  have hfl : (c.filter (fun p => !(p.1 == k))).length + 1 = c.length :=
    filter_key_length hnodup hk
  have hfne : c.filter (fun p => !(p.1 == k)) ≠ [] := by
    intro hnil
    rw [hnil] at hfl
    have h2000 : c.length = 2000 := by
      simpa [REPRESENTATION_CACHE_MAX_ENTRIES] using hlen
    simp at hfl
    omega
  have hlen₁ : ((getCachedRepresentation k c).2).length =
      REPRESENTATION_CACHE_MAX_ENTRIES := by
    rw [hget]
    simp only [List.length_append, List.length_cons, List.length_nil]
    omega
  have hne : knew ≠ k := fun he => hknew (he ▸ hk)
  have hknew₁ : knew ∉ ((getCachedRepresentation k c).2).map Prod.fst := by
    rw [hget]
    intro hmem
    rw [List.map_append, List.mem_append] at hmem
    rcases hmem with hmem | hmem
    · exact hknew (mem_keys_of_mem_filter hmem)
    · simp at hmem
      exact hne hmem
  have hset : setCachedRepresentation knew v ((getCachedRepresentation k c).2) =
      ((getCachedRepresentation k c).2).tail ++ [(knew, v)] := by
    unfold setCachedRepresentation
    rw [if_neg (by rw [any_key_eq_false hknew₁]; simp)]
    rw [evictOldest_succ _ (by simp [List.length_append, hlen₁])]
    exact tail_append_of_ne_nil (by
      intro hnil
      have := congrArg List.length hnil
      rw [hlen₁] at this
      simp [REPRESENTATION_CACHE_MAX_ENTRIES] at this)
  refine ⟨hbound, hset, ?_⟩
  rw [hset, hget, tail_append_of_ne_nil hfne]
  simp

/-- Distinct cache keys for the C3 witness. -/
def cacheKeyOfNat (i : Nat) : String := String.mk (List.replicate i 'a')

lemma cacheKeyOfNat_injective : Function.Injective cacheKeyOfNat := by
  intro i j h
  have hlen := congrArg String.length h
  simpa [cacheKeyOfNat, String.length] using hlen

/-- A full cache of 2000 distinct keys. -/
def fullCache : RepresentationCache :=
  (List.range 2000).map (fun i => (cacheKeyOfNat i, emptyRepresentation))

lemma fullCache_keys : fullCache.map Prod.fst = (List.range 2000).map cacheKeyOfNat := by
  simp [fullCache, List.map_map]

lemma fullCache_length : fullCache.length = REPRESENTATION_CACHE_MAX_ENTRIES := by
  simp [fullCache, REPRESENTATION_CACHE_MAX_ENTRIES]

lemma fullCache_nodup : (fullCache.map Prod.fst).Nodup := by
  rw [fullCache_keys]
  exact (List.nodup_range 2000).map cacheKeyOfNat_injective

lemma fullCache_mem : cacheKeyOfNat 5 ∈ fullCache.map Prod.fst := by
  rw [fullCache_keys]
  exact List.mem_map_of_mem _ (List.mem_range.2 (by norm_num))

lemma fullCache_not_mem : cacheKeyOfNat 2000 ∉ fullCache.map Prod.fst := by
  rw [fullCache_keys]
  intro h
  rcases List.mem_map.1 h with ⟨i, hi, he⟩
  have : i = 2000 := cacheKeyOfNat_injective he
  rw [this] at hi
  exact absurd (List.mem_range.1 hi) (by norm_num)

theorem representation_cache_bound_and_lru_witness :
    (fullCache.length = REPRESENTATION_CACHE_MAX_ENTRIES ∧
      (fullCache.map Prod.fst).Nodup ∧
      cacheKeyOfNat 5 ∈ fullCache.map Prod.fst ∧
      cacheKeyOfNat 2000 ∉ fullCache.map Prod.fst) ∧
    (∀ (key : String) (rep : PullRequestRepresentation) (cache : RepresentationCache),
      (setCachedRepresentation key rep cache).length ≤ REPRESENTATION_CACHE_MAX_ENTRIES) ∧
    setCachedRepresentation (cacheKeyOfNat 2000) emptyRepresentation
        (getCachedRepresentation (cacheKeyOfNat 5) fullCache).2 =
      ((getCachedRepresentation (cacheKeyOfNat 5) fullCache).2).tail ++
        [(cacheKeyOfNat 2000, emptyRepresentation)] ∧
    cacheKeyOfNat 5 ∈
      (setCachedRepresentation (cacheKeyOfNat 2000) emptyRepresentation
        (getCachedRepresentation (cacheKeyOfNat 5) fullCache).2).map Prod.fst :=
  ⟨⟨fullCache_length, fullCache_nodup, fullCache_mem, fullCache_not_mem⟩,
    representation_cache_bound_and_lru fullCache (cacheKeyOfNat 5) (cacheKeyOfNat 2000)
      emptyRepresentation fullCache_length fullCache_nodup fullCache_mem fullCache_not_mem⟩

/-- The inner page loop never grows past the limit when entered strictly below it. -/
lemma collectFromPage_length_le (state : String) (lookbackMs nowMs : Int)
    (dateParse : String → Option Int) (limit : Nat) (l : List GithubPullRequest)
    (results : List GithubPullRequest) (h : results.length < limit) :
    (collectFromPage state lookbackMs nowMs dateParse limit l results).length ≤ limit := by
  induction l generalizing results with
  | nil => simpa [collectFromPage] using Nat.le_of_lt h
  | cons pr rest ih =>
    rw [collectFromPage]
    split
    · dsimp only
      split
      · simpa using h
      · exact ih _ (Nat.lt_of_not_le (by assumption))
    · exact ih _ h

/-- Everything the inner page loop adds beyond the accumulator passed the candidate
filter. -/
lemma collectFromPage_mem (state : String) (lookbackMs nowMs : Int)
    (dateParse : String → Option Int) (limit : Nat) (l : List GithubPullRequest)
    (results : List GithubPullRequest) (pr : GithubPullRequest)
    (h : pr ∈ collectFromPage state lookbackMs nowMs dateParse limit l results) :
    pr ∈ results ∨ keepCandidate state lookbackMs nowMs dateParse pr = true := by
  induction l generalizing results with
  | nil => exact Or.inl (by simpa [collectFromPage] using h)
  | cons q rest ih =>
    rw [collectFromPage] at h
    by_cases hkeep : keepCandidate state lookbackMs nowMs dateParse q = true
    · rw [if_pos hkeep] at h
      dsimp only at h
      have hsplit : pr ∈ results ++ [q] ∨
          pr ∈ collectFromPage state lookbackMs nowMs dateParse limit rest (results ++ [q]) := by
        by_cases hbreak : limit ≤ (results ++ [q]).length
        · rw [if_pos hbreak] at h
          exact Or.inl h
        · rw [if_neg hbreak] at h
          exact Or.inr h
      rcases hsplit with hsplit | hsplit
      · rcases List.mem_append.1 hsplit with hm | hm
        · exact Or.inl hm
        · simp at hm
          rw [hm]
          exact Or.inr hkeep
      · rcases ih _ hsplit with hm | hm
        · rcases List.mem_append.1 hm with hm' | hm'
          · exact Or.inl hm'
          · simp at hm'
            rw [hm']
            exact Or.inr hkeep
        · exact Or.inr hm
    · rw [if_neg hkeep] at h
      exact ih _ h

/-- The page loop keeps the result within the limit. -/
lemma collectPagesAux_length_le (pageData : Nat → List GithubPullRequest) (state : String)
    (lookbackMs nowMs : Int) (dateParse : String → Option Int) (limit : Nat)
    (fuel page : Nat) (results : List GithubPullRequest) (h : results.length ≤ limit) :
    (collectPagesAux pageData state lookbackMs nowMs dateParse limit page fuel
      results).length ≤ limit := by
  induction fuel generalizing page results with
  | zero => simpa [collectPagesAux] using h
  | succ fuel ih =>
    rw [collectPagesAux]
    split
    · dsimp only
      split
      · assumption
      · split
        · exact collectFromPage_length_le _ _ _ _ _ _ _ (by assumption)
        · exact ih _ _ (collectFromPage_length_le _ _ _ _ _ _ _ (by assumption))
    · exact h

/-- Everything the page loop adds beyond the accumulator passed the candidate filter. -/
lemma collectPagesAux_mem (pageData : Nat → List GithubPullRequest) (state : String)
    (lookbackMs nowMs : Int) (dateParse : String → Option Int) (limit : Nat)
    (fuel page : Nat) (results : List GithubPullRequest) (pr : GithubPullRequest)
    (h : pr ∈ collectPagesAux pageData state lookbackMs nowMs dateParse limit page fuel results) :
    pr ∈ results ∨ keepCandidate state lookbackMs nowMs dateParse pr = true := by
  induction fuel generalizing page results with
  | zero => exact Or.inl (by simpa [collectPagesAux] using h)
  | succ fuel ih =>
    rw [collectPagesAux] at h
    split at h
    · dsimp only at h
      split at h
      · exact Or.inl h
      · split at h
        · exact collectFromPage_mem _ _ _ _ _ _ _ _ h
        · rcases ih _ _ h with hm | hm
          · exact collectFromPage_mem _ _ _ _ _ _ _ _ hm
          · exact Or.inr hm
    · exact Or.inl h

/-- C7: `collectPullRequests` returns at most `limit` records, and with state `closed`
every returned record carries a parseable merge timestamp no older than the current
time minus the lookback window (never-merged items and items merged before the window
are excluded). -/
theorem collect_pull_requests_bound_and_window (pageData : Nat → List GithubPullRequest)
    (state : String) (limit : Nat) (mergedLookbackDays : Int)
    (dateParse : String → Option Int) (nowMs : Int) :
    (collectPullRequests pageData state limit mergedLookbackDays dateParse nowMs).length ≤
      limit ∧
    (state = "closed" →
      ∀ pr ∈ collectPullRequests pageData state limit mergedLookbackDays dateParse nowMs,
        ∃ mergedAt mergedAtMs, pr.merged_at = some mergedAt ∧ mergedAt ≠ "" ∧
          dateParse mergedAt = some mergedAtMs ∧
          nowMs - mergedAtMs ≤ mergedLookbackDays * 24 * 60 * 60 * 1000) := by
  constructor
  · exact collectPagesAux_length_le _ _ _ _ _ _ _ _ _ (by simp)
  · intro hstate pr hpr
    have hkeep := collectPagesAux_mem _ _ _ _ _ _ _ _ _ _ hpr
    rcases hkeep with hm | hm
    · simp at hm
    · rw [keepCandidate, if_pos hstate] at hm
      rcases hma : pr.merged_at with _ | mergedAt
      · rw [hma] at hm
        simp at hm
      · rw [hma] at hm
        dsimp only at hm
        by_cases hempty : mergedAt = ""
        · rw [if_pos hempty] at hm
          simp at hm
        · rw [if_neg hempty] at hm
          rcases hdp : dateParse mergedAt with _ | mergedAtMs
          · rw [hdp] at hm
            simp at hm
          · rw [hdp] at hm
            exact ⟨mergedAt, mergedAtMs, rfl, hempty, hdp, by simpa using hm⟩

/-- C7 witness: a single closed page with one candidate merged within the window. -/
def mergedCandidatePullRequest : GithubPullRequest :=
  { emptyGithubPullRequest with
    number := 7
    state := some "closed"
    merged_at := some "2024-01-01T00:00:00Z" }

def singleClosedPage (page : Nat) : List GithubPullRequest :=
  if page = 1 then [mergedCandidatePullRequest] else []

def witnessDateParse (s : String) : Option Int :=
  if s = "2024-01-01T00:00:00Z" then some 1704067200000 else none

theorem collect_pull_requests_bound_and_window_witness :
    (collectPullRequests singleClosedPage "closed" 5 30 witnessDateParse
        1704067200000).length ≤ 5 ∧
    (∀ pr ∈ collectPullRequests singleClosedPage "closed" 5 30 witnessDateParse
        1704067200000,
      ∃ mergedAt mergedAtMs, pr.merged_at = some mergedAt ∧ mergedAt ≠ "" ∧
        witnessDateParse mergedAt = some mergedAtMs ∧
        1704067200000 - mergedAtMs ≤ 30 * 24 * 60 * 60 * 1000) :=
  ⟨(collect_pull_requests_bound_and_window singleClosedPage "closed" 5 30 witnessDateParse
      1704067200000).1,
    (collect_pull_requests_bound_and_window singleClosedPage "closed" 5 30 witnessDateParse
      1704067200000).2 rfl⟩

/-- An override object whose every field carries an unparseable value. -/
def garbageConfigInput : DuplicateConfigInput :=
  { enabled := some (.str "garbage")
    onlyOnOpened := some (.str "garbage")
    maxOpenCandidates := some (.str "garbage")
    maxMergedCandidates := some (.str "garbage")
    maxCandidateComparisons := some (.str "garbage")
    mergedLookbackDays := some (.str "garbage")
    fileCountDeltaThreshold := some (.str "garbage")
    topLevelDirOverlapThreshold := some (.str "garbage")
    fileOverlapThreshold := some (.str "garbage")
    structuralSimilarityThreshold := some (.str "garbage")
    metadataSimilarityThreshold := some (.str "garbage")
    candidateFetchConcurrency := some (.str "garbage")
    maxPatchCharactersPerFile := some (.str "garbage")
    metadataVectorSize := some (.str "garbage")
    maxReportedMatches := some (.str "garbage") }

/-- C9: `normalizeDuplicateConfig` is a total function whose every output field lies in
its fixed sane range — the fetch concurrency is at least 1 (and at most 12), every
similarity threshold lies in [0, 1], every candidate/count limit is at least 1, the
per-file patch cap is at least 200 and the vector size at least 32 — and an input whose
every field is unparseable is normalized to exactly the documented defaults. -/
theorem normalize_config_sane_ranges (input : DuplicateConfigInput) :
    (1 ≤ (normalizeDuplicateConfig input).maxOpenCandidates ∧
      (normalizeDuplicateConfig input).maxOpenCandidates ≤ 400) ∧
    (1 ≤ (normalizeDuplicateConfig input).maxMergedCandidates ∧
      (normalizeDuplicateConfig input).maxMergedCandidates ≤ 600) ∧
    (1 ≤ (normalizeDuplicateConfig input).maxCandidateComparisons ∧
      (normalizeDuplicateConfig input).maxCandidateComparisons ≤ 200) ∧
    (1 ≤ (normalizeDuplicateConfig input).mergedLookbackDays ∧
      (normalizeDuplicateConfig input).mergedLookbackDays ≤ 1000) ∧
    (0 ≤ (normalizeDuplicateConfig input).fileCountDeltaThreshold ∧
      (normalizeDuplicateConfig input).fileCountDeltaThreshold ≤ 100) ∧
    (0 ≤ (normalizeDuplicateConfig input).topLevelDirOverlapThreshold ∧
      (normalizeDuplicateConfig input).topLevelDirOverlapThreshold ≤ 1) ∧
    (0 ≤ (normalizeDuplicateConfig input).fileOverlapThreshold ∧
      (normalizeDuplicateConfig input).fileOverlapThreshold ≤ 1) ∧
    (0 ≤ (normalizeDuplicateConfig input).structuralSimilarityThreshold ∧
      (normalizeDuplicateConfig input).structuralSimilarityThreshold ≤ 1) ∧
    (0 ≤ (normalizeDuplicateConfig input).metadataSimilarityThreshold ∧
      (normalizeDuplicateConfig input).metadataSimilarityThreshold ≤ 1) ∧
    (1 ≤ (normalizeDuplicateConfig input).candidateFetchConcurrency ∧
      (normalizeDuplicateConfig input).candidateFetchConcurrency ≤ 12) ∧
    (200 ≤ (normalizeDuplicateConfig input).maxPatchCharactersPerFile ∧
      (normalizeDuplicateConfig input).maxPatchCharactersPerFile ≤ 100000) ∧
    (32 ≤ (normalizeDuplicateConfig input).metadataVectorSize ∧
      (normalizeDuplicateConfig input).metadataVectorSize ≤ 2048) ∧
    (1 ≤ (normalizeDuplicateConfig input).maxReportedMatches ∧
      (normalizeDuplicateConfig input).maxReportedMatches ≤ 10) ∧
    normalizeDuplicateConfig garbageConfigInput = DEFAULT_DUPLICATE_CONFIG := by
  refine ⟨?_, ?_, ?_, ?_, ?_, ?_, ?_, ?_, ?_, ?_, ?_, ?_, ?_, ?_⟩
  · exact clamp_mem _ _ _ (by norm_num)
  · exact clamp_mem _ _ _ (by norm_num)
  · exact clamp_mem _ _ _ (by norm_num)
  · exact clamp_mem _ _ _ (by norm_num)
  · exact clamp_mem _ _ _ (by norm_num)
  · exact clamp_mem _ _ _ (by norm_num)
  · exact clamp_mem _ _ _ (by norm_num)
  · exact clamp_mem _ _ _ (by norm_num)
  · exact clamp_mem _ _ _ (by norm_num)
  · exact clamp_mem _ _ _ (by norm_num)
  · exact clamp_mem _ _ _ (by norm_num)
  · exact clamp_mem _ _ _ (by norm_num)
  · exact clamp_mem _ _ _ (by norm_num)
  · have hint : jsParseInt "garbage" = none := by decide
    have hfloat : jsParseFloat "garbage" = none := by decide
    have hbt : parseBoolean (.str "garbage") true = true := by decide
    have hbf : parseBoolean (.str "garbage") false = false := by decide
    simp [normalizeDuplicateConfig, garbageConfigInput, DEFAULT_DUPLICATE_CONFIG,
      parseInteger, parseNumber, hint, hfloat, hbt, hbf]
    norm_num [clamp]

/- ===== C5: threshold snapshot in detection results ===== -/

/-- A detection environment with no remote data at all. -/
def emptyDetectEnv : DetectEnv :=
  { openPageData := fun _ => []
    closedPageData := fun _ => []
    filesOf := fun _ => []
    dateParse := fun _ => none
    nowMs := 0 }

/-- An override object that only disables the check. -/
def disabledConfigInput : DuplicateConfigInput := { enabled := some (.bool false) }

/-- C5 counterexample: the claim says every `DuplicateDetectionResult` returned by
`detectDuplicatePullRequest` contains the threshold snapshot, including skipped runs —
but the `disabled` skip result returned by the function omits the `thresholds` key
entirely (modeled as `none`), refuting the claim at this concrete input. -/
theorem skipped_result_omits_thresholds :
    (detectDuplicatePullRequest emptyDetectEnv noMatcherEnv "owner" "repo"
        emptyGithubPullRequest [] disabledConfigInput []).1.checked = false ∧
    (detectDuplicatePullRequest emptyDetectEnv noMatcherEnv "owner" "repo"
        emptyGithubPullRequest [] disabledConfigInput []).1.thresholds = none := by
  constructor <;> decide

/-- C5 (amended): every result of an executed (`checked = true`) run carries the
threshold snapshot of the effective configuration, while the skipped (`disabled`) result
carries no snapshot. -/
theorem thresholds_present_iff_checked (env : DetectEnv) (menv : MatcherEnv)
    (owner repo : String) (currentPullRequest : GithubPullRequest)
    (currentFiles : List ChangedFile) (config : DuplicateConfigInput)
    (cache : RepresentationCache) :
    ((detectDuplicatePullRequest env menv owner repo currentPullRequest currentFiles config
        cache).1.checked = true →
      (detectDuplicatePullRequest env menv owner repo currentPullRequest currentFiles config
          cache).1.thresholds =
        some
          { fileOverlap := (normalizeDuplicateConfig config).fileOverlapThreshold
            structuralSimilarity := (normalizeDuplicateConfig config).structuralSimilarityThreshold
            metadataSimilarity := (normalizeDuplicateConfig config).metadataSimilarityThreshold }) ∧
    ((detectDuplicatePullRequest env menv owner repo currentPullRequest currentFiles config
        cache).1.checked = false →
      (detectDuplicatePullRequest env menv owner repo currentPullRequest currentFiles config
        cache).1.thresholds = none) := by
  cases he : (normalizeDuplicateConfig config).enabled <;>
    constructor <;> intro hchecked <;>
      simp [detectDuplicatePullRequest, he] at hchecked ⊢

/-- C5 witness for the amended claim: with the default configuration the run executes
and the result carries the effective threshold snapshot. -/
def allDefaultsConfigInput : DuplicateConfigInput := {}

theorem thresholds_present_iff_checked_witness :
    (detectDuplicatePullRequest emptyDetectEnv noMatcherEnv "owner" "repo"
        emptyGithubPullRequest [] allDefaultsConfigInput []).1.checked = true ∧
    (detectDuplicatePullRequest emptyDetectEnv noMatcherEnv "owner" "repo"
        emptyGithubPullRequest [] allDefaultsConfigInput []).1.thresholds =
      some
        { fileOverlap := (normalizeDuplicateConfig allDefaultsConfigInput).fileOverlapThreshold
          structuralSimilarity :=
            (normalizeDuplicateConfig allDefaultsConfigInput).structuralSimilarityThreshold
          metadataSimilarity :=
            (normalizeDuplicateConfig allDefaultsConfigInput).metadataSimilarityThreshold } :=
  have hchecked : (detectDuplicatePullRequest emptyDetectEnv noMatcherEnv "owner" "repo"
      emptyGithubPullRequest [] allDefaultsConfigInput []).1.checked = true := by decide
  ⟨hchecked,
    (thresholds_present_iff_checked emptyDetectEnv noMatcherEnv "owner" "repo"
      emptyGithubPullRequest [] allDefaultsConfigInput []).1 hchecked⟩
